import Mathlib

/-!
Shallow embedding of the MoySklad document-monitoring service
(monitoring_service_v2.py and moysklad_client.py) and proofs about its
validation rules, retry policy and report folding.

Conventions used throughout the embedding:
* Python strings are Lean `String`s; where Python normalizes
  (lower-case + keep only alphanumerics) we work on `List Char` with
  executable helpers, because the relevant alphabet is ASCII plus the
  Cyrillic block actually used by the source.
* Python numbers coming from the API (document sums, position prices)
  are embedded as rationals; the source divides them by 100, which is
  exact division here.  The float tolerance `epsilon = 0.01` of the
  source is the rational 1/100.
* Mutable state (the per-service owner-name cache, the per-document
  company-type memo) is threaded explicitly; dictionaries become
  association lists; `_make_request` calls performed inside validators
  become oracle functions passed as parameters.
* A Python function that returns an error string returns a Lean
  `String`, with the empty string meaning "no issue", exactly as in the
  source.  Interpolated numeric tails of messages are elided (only the
  emptiness and the interpolated name parts of messages are ever used
  by the properties below); quote characters inside messages are elided
  as well.
-/

namespace Monitoring

/-- Python `str.lower` restricted to the alphabet used by the source:
ASCII letters and the Cyrillic block (А..Я to а..я, Ё to ё). -/
def pyLower (c : Char) : Char :=
  if 0x41 ≤ c.toNat ∧ c.toNat ≤ 0x5A then Char.ofNat (c.toNat + 0x20)
  else if 0x410 ≤ c.toNat ∧ c.toNat ≤ 0x42F then Char.ofNat (c.toNat + 0x20)
  else if c.toNat = 0x401 then Char.ofNat 0x451
  else c

/-- Python `str.isalnum` restricted to the same alphabet: ASCII digits and
letters plus Cyrillic letters. -/
def pyIsAlnum (c : Char) : Bool :=
  (0x30 ≤ c.toNat ∧ c.toNat ≤ 0x39) ∨ (0x61 ≤ c.toNat ∧ c.toNat ≤ 0x7A) ∨
  (0x41 ≤ c.toNat ∧ c.toNat ≤ 0x5A) ∨ (0x410 ≤ c.toNat ∧ c.toNat ≤ 0x44F) ∨
  c.toNat = 0x401 ∨ c.toNat = 0x451

/-- Python `str.isdigit` for the characters that occur in phone and tax-id
fields (ASCII digits). -/
def pyIsDigit (c : Char) : Bool :=
  0x30 ≤ c.toNat ∧ c.toNat ≤ 0x39

/-- Python whitespace as used by `str.strip()` on the data in play. -/
def pyIsSpace (c : Char) : Bool :=
  c = ' ' ∨ c = '\t' ∨ c = '\n' ∨ c = '\r'

/-- The `_norm` helper of monitoring_service_v2.py: lower-case, then keep
only alphanumeric characters. -/
def norm (s : String) : List Char :=
  (s.data.map pyLower).filter pyIsAlnum

/-- Lower-casing of a whole string (Python `str.lower`). -/
def lowerStr (s : String) : String :=
  String.mk (s.data.map pyLower)

/-- Digit extraction used by `_validate_phone` and `_validate_unp`:
`join(ch for ch in s if ch.isdigit())`. -/
def digitsOf (s : String) : List Char :=
  s.data.filter pyIsDigit

/-- Python `s.startswith(p)` on character lists (needle first). -/
def leadsL : List Char → List Char → Bool
  | [], _ => true
  | _ :: _, [] => false
  | a :: as, b :: bs => a == b && leadsL as bs

/-- Python `needle in hay` (substring containment) on character lists. -/
def hasSubL (needle : List Char) : List Char → Bool
  | [] => needle.isEmpty
  | hay@(_ :: tl) => leadsL needle hay || hasSubL needle tl

/-- Substring test on strings, Python `needle in s`. -/
def containsStr (needle s : String) : Bool :=
  hasSubL needle.data s.data

/-- Python `needle in s.lower()`. -/
def containsLower (needle s : String) : Bool :=
  hasSubL needle.data (lowerStr s).data

/-- Python truthiness of an optional string (`None` and the empty string
are falsy). -/
def optTruthy : Option String → Bool
  | none => false
  | some s => s ≠ ""

/-- Python `not str(s).strip()`: the string is empty or all whitespace. -/
def pyBlank (s : String) : Bool :=
  s.data.all pyIsSpace

/-- Python `a or b` on optional strings (empty string counts as falsy). -/
def pyOrS (a b : Option String) : Option String :=
  match a with
  | some s => if s = "" then b else some s
  | none => b

/-- Splitting a character list on a separator, Python `s.split(sep)`. -/
def splitOnChar (sep : Char) : List Char → List (List Char)
  | [] => [[]]
  | c :: rest =>
    let r := splitOnChar sep rest
    if c = sep then [] :: r
    else
      match r with
      | [] => [[c]]
      | h :: t => (c :: h) :: t

/-- Python `l.rstrip(sep)` on character lists. -/
def dropTrail (sep : Char) (l : List Char) : List Char :=
  ((l.reverse).dropWhile (· = sep)).reverse

/-- The identifier derivation `href.rstrip("/").split("/")[-1]` used by
`_resolve_owner` and `_get_counterparty_type`. -/
def lastSeg (s : String) : String :=
  String.mk ((splitOnChar '/' (dropTrail '/' s.data)).getLastD [])

/-! Data model.  A `Doc` is the slice of a MoySklad document record that
the validators read.  Reference-valued fields (`{meta: {href}, name}`
dictionaries) are flattened to a `Ref`; custom attributes carry a name, a
type tag and an optional value that is either a plain string or a
reference-like object. -/

/-- A reference-valued field: the inline `name` and the `meta.href` link. -/
structure Ref where
  name : Option String
  href : Option String
deriving DecidableEq, Repr

/-- A field or attribute value: a plain string or a reference-like object
(dictionary with optional `name` and `meta.href`). -/
inductive FieldVal
  | str (s : String)
  | obj (name : Option String) (href : Option String)
deriving DecidableEq, Repr

/-- A custom attribute entry: `{name, type, value}`. -/
structure Attr where
  name : String
  atype : String
  value : Option FieldVal
deriving DecidableEq, Repr

/-- The `agent` (counterparty) sub-object of a document. -/
structure Agent where
  name : Option String
  companyType : Option String
  href : Option String
deriving DecidableEq, Repr

/-- One line item of `positions.rows`: the assortment name and the raw API
price (in kopecks; the source divides it by 100) plus the quantity. -/
structure Position where
  assortmentName : Option String
  priceRaw : ℚ
  quantity : ℚ
deriving DecidableEq, Repr

/-- One entry of the `price_errors` list built by the price validators. -/
structure PriceError where
  product : String
  issue : String
  price : ℚ
  quantity : ℚ
deriving DecidableEq, Repr

/-- The fetched contract data used by `_validate_contract_fields`,
`_validate_contract_type_shipment` and `_validate_shipment_payment`:
the standard `contractType` field and the custom attributes. -/
structure ContractData where
  contractType : Option String
  attributes : List Attr
deriving DecidableEq, Repr

/-- The fetched employee record used by `_resolve_owner`
(`name` / `fullName` / `login`). -/
structure EmpData where
  name : Option String
  fullName : Option String
  login : Option String
deriving DecidableEq, Repr

/-- The slice of a document that the validators read.  `daysPassed` is the
already-parsed elapsed-day count `(date.today() - moment.date()).days`
(`none` when `moment` is missing or unparseable); `sumRaw`/`payedRaw` are
the raw API sums, divided by 100 inside the validators as in the source;
`cachedCompanyType` is the `_cached_company_type` memo key written into
the document dictionary by `_get_counterparty_type` (`none` = key absent,
`some v` = key present with value `v`). -/
structure Doc where
  metaType : String
  description : String
  owner : Option Ref
  agent : Option Agent
  attributes : List Attr
  salesChannel : Option FieldVal
  project : Option FieldVal
  contract : Option Ref
  positions : List Position
  sumRaw : ℚ
  payedRaw : ℚ
  daysPassed : Option Int
  cachedCompanyType : Option (Option String)
deriving DecidableEq, Repr

/-- A document with every field absent, used to build concrete test
documents by updating individual fields. -/
def emptyDoc : Doc where
  metaType := ""
  description := ""
  owner := none
  agent := none
  attributes := []
  salesChannel := none
  project := none
  contract := none
  positions := []
  sumRaw := 0
  payedRaw := 0
  daysPassed := none
  cachedCompanyType := none

/-! Phone validation, `_validate_phone` (monitoring_service_v2.py
lines 385-418).  The region is the service's region field. -/

/-- Embedding of `_validate_phone`: strip non-digits, then apply the
region-specific prefix and length rules.  Interpolated numbers and the
offending phone are appended where the source interpolates them. -/
def validate_phone (region phone : String) : String :=
  if phone = "" then "Телефон не указан"
  else
    let clean := digitsOf phone
    if clean = [] then "Телефон содержит недопустимые символы: " ++ phone
    else if region = "RB" then
      if ¬ leadsL "375".data clean then "Номер должен начинаться с 375: " ++ phone
      else if clean.length ≠ 12 then
        "Неверная длина номера: " ++ toString clean.length ++ " цифр (должно быть 12)"
      else ""
    else if region = "RF" then
      if ¬ (leadsL "7".data clean ∨ leadsL "8".data clean) then
        "Номер должен начинаться с 7: " ++ phone
      else if clean.length ≠ 11 then
        "Неверная длина номера: " ++ toString clean.length ++ " цифр (должно быть 11)"
      else ""
    else if region = "KZ" then
      if ¬ leadsL "7".data clean then "Номер должен начинаться с 7: " ++ phone
      else if clean.length ≠ 11 then
        "Неверная длина номера: " ++ toString clean.length ++ " цифр (должно быть 11)"
      else ""
    else
      if clean.length < 10 then "Номер слишком короткий: " ++ toString clean.length ++ " цифр"
      else if clean.length > 15 then "Номер слишком длинный: " ++ toString clean.length ++ " цифр"
      else ""

/-! Tax-id validation, `_validate_unp` (lines 512-578).  The fallback
extraction chain (standard fields, requisites, code, custom attributes)
is abstracted as the already-extracted value `unp` (`none` = not found in
any location, which the source reports as unfilled); the source's
non-string branch is outside this model since every extracted value in
play is a string. -/

/-- Embedding of `_validate_unp` from the extracted value on:
company-type gate, then the per-region digit-count rules, then the
`isdigit` check (which on the cleaned digit string can only fail when no
digit was found at all, exactly as in the source). -/
def validate_unp (region : String) (companyType : Option String) (unp : Option String) : String :=
  let company_type := lowerStr (companyType.getD "")
  if ¬ (company_type = "legal" ∨ company_type = "entrepreneur") then ""
  else
    match unp with
    | none => "УНП/ИНН не заполнен"
    | some u =>
      let unp_clean := digitsOf u
      if region = "RB" ∧ unp_clean.length ≠ 9 then
        "Неверная длина УНП для РБ: " ++ toString unp_clean.length ++ " цифр (должно быть 9)"
      else if region = "RF" ∧ company_type = "legal" ∧ unp_clean.length ≠ 10 then
        "Неверная длина ИНН для юр. лица в РФ: " ++ toString unp_clean.length ++
          " цифр (должно быть 10)"
      else if region = "RF" ∧ company_type = "entrepreneur" ∧ unp_clean.length ≠ 12 then
        "Неверная длина ИНН для ИП в РФ: " ++ toString unp_clean.length ++ " цифр (должно быть 12)"
      else if ¬ (unp_clean ≠ [] ∧ unp_clean.all pyIsDigit) then
        "УНП/ИНН содержит недопустимые символы: " ++ u
      else ""

/-! Payment-deadline evaluation, `_validate_shipment_payment`
(lines 1402-1542).  `payment_dispatch` is the dispatch on the contract
condition, reached after the source obtained the document date, the sums
and the contract condition; `shipment_payment_check` adds the region and
positive-total gates that the source applies before the dispatch. -/

/-- The conditions exempt from the payment check (`skip_conditions` of
the source, already normalized). -/
def skip_conditions : List (List Char) :=
  [norm "Без договора",
   norm "предоставления безвозмездной (спонсорской) помощи",
   norm "Договор комиссии"]

/-- Dispatch of `_validate_shipment_payment` on the normalized contract
condition, given the elapsed days and the sums (already divided by 100).
The deferral branches match by substring as in the source; the source's
second disjunct of each deferral test uses `condition_norm.replace(" ","")`,
which equals `condition_norm` because normalization already removed
spaces, and its re-check of the contract is vacuous at this point and is
therefore not repeated here. -/
def payment_dispatch (contract_condition : String) (days_passed : Int)
    (total_sum payed_sum : ℚ) : String :=
  let cn := norm contract_condition
  if skip_conditions.contains cn then ""
  else
    let epsilon : ℚ := 1/100
    if cn == norm "Предоплата" then
      if payed_sum + epsilon < total_sum then
        "Условие договора " ++ contract_condition ++ ": требуется 100% оплата"
      else ""
    else if hasSubL "отсрочка1630".data cn || hasSubL "отсрочка16-30".data cn then
      if 30 < days_passed ∧ payed_sum + epsilon < total_sum then
        "Отсрочка 16-30 дней истекла"
      else ""
    else if hasSubL "отсрочка3060".data cn || hasSubL "отсрочка30-60".data cn then
      if 60 < days_passed ∧ payed_sum + epsilon < total_sum then
        "Отсрочка 30-60 дней истекла"
      else ""
    else if hasSubL "отсрочка60".data cn && hasSubL "более".data cn then
      if 61 < days_passed ∧ payed_sum + epsilon < total_sum then
        "Отсрочка 60+ дней истекла"
      else ""
    else ""

/-- The payment-deadline evaluation given the contract condition: the
region gate (`region not in {RB, RF}` skips) and the positive-total gate
of the source, followed by the condition dispatch. -/
def shipment_payment_check (region contract_condition : String) (days_passed : Int)
    (total_sum payed_sum : ℚ) : String :=
  if ¬ (region = "RB" ∨ region = "RF") then ""
  else if total_sum ≤ 0 then ""
  else payment_dispatch contract_condition days_passed total_sum payed_sum

/-! Sales-channel / project consistency, `_validate_shipment_project`
(lines 1024-1137). -/

/-- The fixed channel-to-projects table of the source; keys and project
entries are stored already normalized, as in the source. -/
def CHANNEL_PROJECT_MAPPING : List (String × List String) :=
  [("сети", ["федеральные", "региональные", "локальные"]),
   ("опт", ["крупныйопт", "среднийопт", "салоны"]),
   ("фарма", ["аптеки"]),
   ("экспорт", ["экспортазия"]),
   ("транзиты", ["европа", "оаэ", "казахстан", "беларусь", "россия"]),
   ("маркетплейсы", []),
   ("розницаим", []),
   ("розницаофлайн", []),
   ("розницауслуги", []),
   ("розницасертификаты", []),
   ("ctm", [])]

/-- The table search of the source: the first entry whose key and the
normalized channel name contain one another (in either direction). -/
def findChannelPair (cn : List Char) : Option (String × List String) :=
  CHANNEL_PROJECT_MAPPING.find? (fun kv => hasSubL kv.1.data cn || hasSubL cn kv.1.data)

/-- Custom-attribute fallback of the channel-name extraction in
`_validate_shipment_project`: the first attribute whose normalized name
is one of the two channel spellings ends the search (the source breaks
there whatever the value holds). -/
def channelFromAttrs : List Attr → String
  | [] => ""
  | a :: rest =>
    if norm a.name = norm "каналпродаж" ∨ norm a.name = norm "каналпродажи" then
      match a.value with
      | some (.obj n _) => n.getD ""
      | some (.str s) => s
      | _ => ""
    else channelFromAttrs rest

/-- Channel-name extraction of `_validate_shipment_project`: the standard
`salesChannel` field first, then the custom attribute fallback. -/
def projectChannelName (doc : Doc) : String :=
  let scName0 : String :=
    match doc.salesChannel with
    | some (.obj n _) => n.getD ""
    | some (.str s) => s
    | none => ""
  if scName0 ≠ "" then scName0
  else channelFromAttrs doc.attributes

/-- Embedding of `_validate_shipment_project`.  The source recomputes the
matching table key when building the message; that recomputation returns
the same first match as the lookup, so the message reuses the matched
projects directly. -/
def validate_shipment_project (doc : Doc) : String :=
  let sales_channel_name := projectChannelName doc
  if sales_channel_name = "" then ""
  else
    let channel_norm := norm sales_channel_name
    let project_name : String :=
      match doc.project with
      | some (.obj n _) => n.getD ""
      | some (.str s) => s
      | none => ""
    let project_norm := norm project_name
    match findChannelPair channel_norm with
    | none => ""
    | some kv =>
      if kv.2 = [] then ""
      else if project_name = "" then
        "Для канала " ++ sales_channel_name ++ " должен быть указан проект. Ожидается: " ++
          String.intercalate ", " kv.2
      else if (kv.2.map (fun p => norm p)).contains project_norm then ""
      else
        "Для канала " ++ sales_channel_name ++ " указан некорректный проект " ++
          project_name ++ ". Ожидается: " ++ String.intercalate ", " kv.2

/-! Zero-price detection, `_validate_shipment_prices` (lines 1370-1400),
`_validate_sale_prices` (lines 2071-2101) and `_validate_commission_prices`
(lines 2103-2133): identical per-position loops flagging unit price
exactly 0.  None of them reads the region or the company type. -/

/-- The record appended for a zero-price position. -/
def zeroPriceRecord (p : Position) : PriceError where
  product := p.assortmentName.getD "Без названия"
  issue := "Нулевая цена"
  price := p.priceRaw / 100
  quantity := p.quantity

/-- Embedding of `_validate_shipment_prices`: flag every position whose
price (raw value divided by 100) is exactly 0. -/
def validate_shipment_prices : List Position → List PriceError
  | [] => []
  | p :: rest =>
    (if p.priceRaw / 100 = 0 then [zeroPriceRecord p] else []) ++
      validate_shipment_prices rest

/-- Embedding of `_validate_sale_prices`, whose body coincides with
`_validate_shipment_prices`. -/
def validate_sale_prices : List Position → List PriceError
  | [] => []
  | p :: rest =>
    (if p.priceRaw / 100 = 0 then [zeroPriceRecord p] else []) ++
      validate_sale_prices rest

/-- Embedding of `_validate_commission_prices`, whose body also coincides
with `_validate_shipment_prices`. -/
def validate_commission_prices : List Position → List PriceError
  | [] => []
  | p :: rest =>
    (if p.priceRaw / 100 = 0 then [zeroPriceRecord p] else []) ++
      validate_commission_prices rest

/-! Issue assembly of the shipments and commission-report evaluators
(check_shipments_period lines 789-853, check_commission_reports_period
lines 1584-1631): each non-empty predicate result contributes one line,
and each price error contributes one line. -/

/-- The per-position line appended for a price error in
check_shipments_period (the numeric price/quantity tail is elided). -/
def priceIssueLine (pe : PriceError) : String :=
  "Позиция " ++ pe.product ++ ": " ++ pe.issue

/-- The `issues` list built by check_shipments_period from the ten
predicate results: the main block (owner, source, channel, project,
prices) followed by the contract block (contract, contract fields,
contract type, payment method, payment). -/
def shipment_issues (owner_error source_error channel_error project_error : String)
    (price_errors : List PriceError)
    (contract_error contract_fields_error contract_type_shipment_error
      payment_method_error payment_error : String) : List String :=
  let main_issues :=
    (if owner_error ≠ "" then ["Владелец: " ++ owner_error] else []) ++
    (if source_error ≠ "" then ["Источник продажи: " ++ source_error] else []) ++
    (if channel_error ≠ "" then ["Канал продаж: " ++ channel_error] else []) ++
    (if project_error ≠ "" then ["Проект: " ++ project_error] else []) ++
    price_errors.map priceIssueLine
  let contract_issues :=
    (if contract_error ≠ "" then ["Договор: " ++ contract_error] else []) ++
    (if contract_fields_error ≠ "" then ["Поля договора: " ++ contract_fields_error] else []) ++
    (if contract_type_shipment_error ≠ "" then
      ["Тип договора: " ++ contract_type_shipment_error] else []) ++
    (if payment_method_error ≠ "" then ["Метод расчета: " ++ payment_method_error] else []) ++
    (if payment_error ≠ "" then ["Оплата: " ++ payment_error] else [])
  main_issues ++ contract_issues

/-- The `issues` list built by check_commission_reports_period from the
eight predicate results, in the source's order (prices first). -/
def commission_issues (price_errors : List PriceError)
    (channel_error project_error contract_error contract_fields_error
      source_error payment_method_error payment_error : String) : List String :=
  price_errors.map priceIssueLine ++
  (if channel_error ≠ "" then ["Канал продаж: " ++ channel_error] else []) ++
  (if project_error ≠ "" then ["Проект: " ++ project_error] else []) ++
  (if contract_error ≠ "" then ["Договор: " ++ contract_error] else []) ++
  (if contract_fields_error ≠ "" then ["Поля договора: " ++ contract_fields_error] else []) ++
  (if source_error ≠ "" then ["Источник продажи: " ++ source_error] else []) ++
  (if payment_method_error ≠ "" then ["Метод расчета: " ++ payment_method_error] else []) ++
  (if payment_error ≠ "" then ["Оплата: " ++ payment_error] else [])

/-- Count of non-empty predicate results. -/
def countNonEmpty (l : List String) : Nat :=
  (l.filter (fun s => s ≠ "")).length

/-- Truthy-and-non-blank test on an optional string, Python
`x is not None and str(x).strip() != ""` resp. `x and str(x).strip()`. -/
def optNonBlank : Option String → Bool
  | some s => ! pyBlank s
  | none => false

/-! Reference resolver, `_resolve_owner` (lines 290-325) and
`_get_counterparty_type` (lines 348-383).  The `_owner_cache` dictionary
becomes an association list (insertion at the head, lookup takes the
first hit, so insertion overwrites); `_make_request` becomes the oracle
`fetchEmp` resp. `fetchAgent` (`none` models a failed request or falsy
response data, in which case the source leaves the value unchanged). -/

/-- The per-service owner-name cache. -/
abbrev OwnerCache := List (String × String)

/-- Embedding of `_resolve_owner`: returns the display name and the
identifier derived from the reference link, consulting and updating the
owner cache exactly as the source does.  An `href` that is the empty
string is falsy in Python and treated as absent. -/
def resolve_owner (fetchEmp : String → Option EmpData) (cache : OwnerCache)
    (owner : Option Ref) : (String × Option String) × OwnerCache :=
  match owner with
  | none => (("Не указан", none), cache)
  | some o =>
    let href : Option String := if optTruthy o.href then o.href else none
    let owner_id : Option String := href.map lastSeg
    let cache_key : Option String :=
      href.map (fun h => if lastSeg h ≠ "" then lastSeg h else h)
    let nameBlank : Bool := match o.name with | none => true | some s => pyBlank s
    let fetchStep : Option String × OwnerCache :=
      match fetchEmp (href.getD "") with
      | none => (o.name, cache)
      | some d =>
        let n := pyOrS (pyOrS d.name d.fullName) d.login
        match cache_key, n with
        | some k, some s =>
          if k ≠ "" ∧ s ≠ "" then (n, (k, s) :: cache) else (n, cache)
        | _, _ => (n, cache)
    let step : Option String × OwnerCache :=
      if nameBlank ∧ href.isSome then
        match List.lookup (cache_key.getD "") cache with
        | some c => if c ≠ "" then (some c, cache) else fetchStep
        | none => fetchStep
      else (o.name, cache)
    let final : String :=
      match step.1 with
      | some s => if pyBlank s then "Не указан" else s
      | none => "Не указан"
    ((final, owner_id), step.2)

/-- Attribute fallback of `_get_counterparty_type`: the first attribute
whose lowercased name contains one of the type tokens ends the search;
a value that is neither a string nor an object leaves the current value
unchanged. -/
def ctFromAttrs (fallback : Option String) : List Attr → Option String
  | [] => fallback
  | a :: rest =>
    if containsStr "тип контрагента" (lowerStr a.name) ∨
        containsStr "companytype" (lowerStr a.name) then
      match a.value with
      | some (.str v) => some v
      | some (.obj n _) => n
      | _ => fallback
    else ctFromAttrs fallback rest

/-- Embedding of `_get_counterparty_type`: the `_cached_company_type`
memo short-circuits; otherwise the type is taken from the agent field,
then from a fetch of the agent link, then from the attributes, is
lower-cased when it is a string, and is written into the memo. -/
def get_counterparty_type (fetchAgent : String → Option String) (doc : Doc) :
    Option String × Doc :=
  match doc.cachedCompanyType with
  | some v => (v, doc)
  | none =>
    let ct0 : Option String := doc.agent.bind (·.companyType)
    let ct1 : Option String :=
      if optTruthy ct0 then ct0
      else
        match doc.agent.bind (·.href) with
        | some h =>
          if h ≠ "" then
            match fetchAgent h with
            | some c => some c
            | none => ct0
          else ct0
        | none => ct0
    let ct2 : Option String := if optTruthy ct1 then ct1 else ctFromAttrs ct1 doc.attributes
    let ctN : Option String := ct2.map lowerStr
    (ctN, { doc with cachedCompanyType := some ctN })

/-! Doc-level validators of the shipments evaluator. -/

/-- Embedding of `_validate_shipment_owner` (lines 879-887): both
branches of the source return the empty string. -/
def validate_shipment_owner (contact_center : String) (doc : Doc) : String :=
  let owner_name := (doc.owner.bind (·.name)).getD ""
  if owner_name = contact_center then "" else ""

/-- Attribute fallback of `_validate_sales_channel`: every attribute
whose normalized name matches returns from the loop. -/
def channelAttrCheck : List Attr → String
  | [] => "Поле Канал-продаж не найдено"
  | a :: rest =>
    if norm a.name = norm "каналпродаж" ∨ norm a.name = norm "каналпродажи" then
      match a.value with
      | some (.obj n _) =>
        if optNonBlank n then ""
        else "Поле Канал-продаж не заполнено"
      | some (.str s) => if ¬ pyBlank s then "" else "Поле Канал-продаж не заполнено"
      | _ => "Поле Канал-продаж не заполнено"
    else channelAttrCheck rest

/-- Embedding of `_validate_sales_channel` (lines 979-1022): the standard
`salesChannel` field (filled when it has a link or a non-blank name),
with the custom-attribute fallback when the field is absent. -/
def validate_sales_channel (doc : Doc) : String :=
  match doc.salesChannel with
  | some (.obj n h) =>
    if optTruthy h || optNonBlank n then ""
    else "Поле Канал-продаж не заполнено (salesChannel без meta/name)"
  | some (.str s) =>
    if ¬ pyBlank s then "" else "Поле Канал-продаж не заполнено (salesChannel пустой)"
  | none => channelAttrCheck doc.attributes

/-- Name extraction for the employee-attribute fallback of
`_validate_sales_source`. -/
def empValName : Option FieldVal → String
  | some (.obj n _) => n.getD ""
  | some (.str s) => s
  | _ => ""

/-- Employee-attribute fallback of `_validate_sales_source`: scan for an
attribute whose normalized name contains the employee token and whose
value normalizes to the contact-center sentinel. -/
def ccFromAttrs (norm_cc : List Char) : List Attr → Bool
  | [] => false
  | a :: rest =>
    if hasSubL "сотрудник".data (norm a.name) then
      if norm (empValName a.value) = norm_cc ∨
          norm (empValName a.value) = norm "контактцентр" then true
      else ccFromAttrs norm_cc rest
    else ccFromAttrs norm_cc rest

/-- Attribute search of `_validate_sales_source`: every attribute whose
normalized name contains both tokens returns from the loop. -/
def sourceAttrCheck : List Attr → String
  | [] => "Поле Источник продажи не найдено"
  | a :: rest =>
    if hasSubL "источник".data (norm a.name) ∧ hasSubL "продаж".data (norm a.name) then
      match a.value with
      | some (.obj n h) =>
        if optTruthy h then ""
        else if optNonBlank n then ""
        else "Поле Источник продажи не заполнено"
      | some (.str s) => if ¬ pyBlank s then "" else "Поле Источник продажи не заполнено"
      | _ => "Поле Источник продажи не заполнено"
    else sourceAttrCheck rest

/-- Embedding of `_validate_sales_source` (lines 889-977).  The source
only runs the attribute fallback when the owner name did not already
match, which is the disjunction below; the `require_*` flag block of the
source collapses to: conjunction of the two conditions for shipments and
commission reports, disjunction for retail demands and unknown types. -/
def validate_sales_source (fetchAgent : String → Option String) (contact_center : String)
    (doc : Doc) : String × Doc :=
  let owner_name := (doc.owner.bind (·.name)).getD ""
  let norm_cc := norm contact_center
  let is_contact_center :=
    norm owner_name = norm_cc ∨ norm owner_name = norm "контактцентр" ∨
      ccFromAttrs norm_cc doc.attributes = true
  let doc_type := lowerStr doc.metaType
  let p := get_counterparty_type fetchAgent doc
  let is_physical := p.1 = some "individual"
  let should_check : Prop :=
    if doc_type = "demand" ∨ doc_type = "commissionreportin" then
      is_contact_center ∧ is_physical
    else is_contact_center ∨ is_physical
  (if ¬ should_check then "" else sourceAttrCheck doc.attributes, p.2)

/-- The filled-reference test used for the standard `contract` field:
a link in the metadata or a non-blank inline name. -/
def refFilled (r : Ref) : Bool :=
  optTruthy r.href || optNonBlank r.name

/-- Contract-attribute fallback of `_validate_shipment_contract`: some
attribute named like a contract (but not a contract type) holds a filled
value. -/
def contractAttrFound : List Attr → Bool
  | [] => false
  | a :: rest =>
    (let n := lowerStr a.name
     if (n = "договор" ∨ n = "contract") ∨
        ((containsStr "договор" n ∨ containsStr "contract" n) ∧ ¬ containsStr "тип" n) then
       match a.value with
       | some (.obj vn vh) => optTruthy vh || optNonBlank vn
       | some (.str s) => ! pyBlank s
       | _ => false
     else false) || contractAttrFound rest

/-- Embedding of `_validate_shipment_contract` (lines 1139-1186):
required only for legal entities and entrepreneurs, satisfied by a
filled standard contract field or a matching filled attribute. -/
def validate_shipment_contract (fetchAgent : String → Option String) (doc : Doc) :
    String × Doc :=
  let p := get_counterparty_type fetchAgent doc
  let msg :=
    match p.1 with
    | none => ""
    | some ct =>
      if ct = "" then ""
      else if ¬ (ct = "legal" ∨ ct = "entrepreneur") then ""
      else
        match doc.contract with
        | some r =>
          if refFilled r then ""
          else if contractAttrFound doc.attributes then ""
          else "Не указан договор для юрлица/ИП"
        | none =>
          if contractAttrFound doc.attributes then ""
          else "Не указан договор для юрлица/ИП"
  (msg, p.2)

/-- Scan-attribute search of `_validate_contract_fields`: the first
attribute whose normalized name matches ends the search; it counts only
when its type tag is `file` and its value is truthy. -/
def scanOf : List Attr → Bool
  | [] => false
  | a :: rest =>
    if norm a.name = norm "скандоговора" ∨ norm a.name = norm "сканд" ∨
        norm a.name = norm "скан" then
      a.atype == "file" &&
        (match a.value with
         | some (.obj _ _) => true
         | some (.str s) => s != ""
         | none => false)
    else scanOf rest

/-- Embedding of `_validate_contract_fields` (lines 1188-1247): when a
contract link exists and its data can be fetched, both the contract type
and an uploaded scan attribute are required; fetch failures are treated
as no issue, as in the source. -/
def validate_contract_fields (fetchContract : String → Option ContractData)
    (doc : Doc) : String :=
  match doc.contract with
  | none => ""
  | some r =>
    match r.href with
    | none => ""
    | some h =>
      if h = "" then ""
      else
        match fetchContract h with
        | none => ""
        | some cd =>
          let errs :=
            (if ¬ optTruthy cd.contractType then ["Не указан тип договора"] else []) ++
            (if ¬ scanOf cd.attributes then ["Не загружен скан договора"] else [])
          String.intercalate "; " errs

/-- Embedding of `_validate_contract_type_shipment` (lines 1249-1290):
RF only, legal entities and entrepreneurs only, contract type required
on the fetched contract. -/
def validate_contract_type_shipment (fetchAgent : String → Option String)
    (fetchContract : String → Option ContractData) (region : String) (doc : Doc) :
    String × Doc :=
  if region ≠ "RF" then ("", doc)
  else
    let p := get_counterparty_type fetchAgent doc
    let msg :=
      if ¬ (p.1 = some "legal" ∨ p.1 = some "entrepreneur") then ""
      else
        match doc.contract with
        | none => ""
        | some r =>
          match r.href with
          | none => ""
          | some h =>
            if h = "" then ""
            else
              match fetchContract h with
              | none => ""
              | some cd =>
                if ¬ optTruthy cd.contractType then "Тип договора не заполнен" else ""
    (msg, p.2)

/-- Payment-method attribute search of `_validate_payment_method`: the
first attribute whose normalized name matches ends the search. -/
def pmFromAttrs : List Attr → Option String
  | [] => none
  | a :: rest =>
    if norm a.name = norm "методрасчета" ∨ norm a.name = norm "методоплаты" then
      match a.value with
      | some (.obj n _) => some (n.getD "")
      | some (.str s) => some s
      | _ => none
    else pmFromAttrs rest

/-- Embedding of `_validate_payment_method` (lines 1292-1368): RB only,
legal entities and entrepreneurs only; the method must substring-match
an allowed method, a contract is then required, and the school/rent
prepayment method additionally requires full payment. -/
def validate_payment_method (fetchAgent : String → Option String) (region : String)
    (doc : Doc) : String × Doc :=
  if region ≠ "RB" then ("", doc)
  else
    let p := get_counterparty_type fetchAgent doc
    let msg :=
      if ¬ (p.1 = some "legal" ∨ p.1 = some "entrepreneur") then ""
      else
        match pmFromAttrs doc.attributes with
        | none => ""
        | some pm =>
          if pm = "" then ""
          else
            let mn := norm pm
            let allowed := [norm "р/с", norm "р/с предоплата (школа-обучение, аренда)"]
            if ¬ (allowed.any (fun a => hasSubL a mn || hasSubL mn a)) then
              "Для юр. лиц/ИП недопустимый метод расчета: " ++ pm ++
                ". Разрешены: р/с, р/с предоплата"
            else
              match doc.contract with
              | none => "Метод расчета " ++ pm ++ " требует наличия договора"
              | some _ =>
                if hasSubL "предоплата".data mn ∧
                    (hasSubL "школа".data mn ∨ hasSubL "обучение".data mn ∨
                      hasSubL "аренда".data mn) then
                  if 0 < doc.sumRaw / 100 ∧ doc.payedRaw / 100 + 1/100 < doc.sumRaw / 100 then
                    "Метод расчета " ++ pm ++ " требует 100% предоплаты"
                  else ""
                else ""
    (msg, p.2)

/-- Contract-condition attribute search of `_validate_shipment_payment`:
the first attribute whose normalized name matches ends the search. -/
def condFromAttrs : List Attr → Option String
  | [] => none
  | a :: rest =>
    if norm a.name = norm "условиедоговора" ∨ norm a.name = norm "условие" then
      match a.value with
      | some (.obj n _) => some (n.getD "")
      | some (.str s) => some s
      | _ => none
    else condFromAttrs rest

/-- Embedding of `_validate_shipment_payment` (lines 1402-1542) over a
document: the region gate, the parsed-date gate, the positive-total
gate, the contract link, the fetched condition, then the dispatch. -/
def validate_shipment_payment (fetchContract : String → Option ContractData)
    (region : String) (doc : Doc) : String :=
  if ¬ (region = "RB" ∨ region = "RF") then ""
  else
    match doc.daysPassed with
    | none => ""
    | some days_passed =>
      let total_sum := doc.sumRaw / 100
      let payed_sum := doc.payedRaw / 100
      if total_sum ≤ 0 then ""
      else
        match doc.contract with
        | none => ""
        | some r =>
          match r.href with
          | none => ""
          | some h =>
            if h = "" then ""
            else
              match fetchContract h with
              | none => ""
              | some cd =>
                match condFromAttrs cd.attributes with
                | none => ""
                | some cond =>
                  if cond = "" then ""
                  else payment_dispatch cond days_passed total_sum payed_sum

/-! The shipments per-document evaluation (loop body of
check_shipments_period, lines 737-857): owner resolution, the ten
predicates in source order with the document memo threaded through the
validators that call `_get_counterparty_type`, and the issue assembly. -/

/-- The oracle environment of one evaluation run: the region, the
contact-center sentinel and the three remote fetches. -/
structure EvalEnv where
  region : String
  contact_center : String
  fetchEmp : String → Option EmpData
  fetchAgent : String → Option String
  fetchContract : String → Option ContractData

/-- The per-document evaluation result: the resolved owner display data
and the assembled issues list. -/
structure DocEval where
  owner_name : String
  owner_id : Option String
  issues : List String
deriving DecidableEq, Repr

/-- One iteration of the check_shipments_period loop over a document:
returns the evaluation together with the updated owner cache and the
(memo-carrying) document. -/
def eval_shipment_doc (env : EvalEnv) (cache : OwnerCache) (doc : Doc) :
    DocEval × OwnerCache × Doc :=
  let ro := resolve_owner env.fetchEmp cache doc.owner
  let owner_error := validate_shipment_owner env.contact_center doc
  let se := validate_sales_source env.fetchAgent env.contact_center doc
  let channel_error := validate_sales_channel se.2
  let project_error := validate_shipment_project se.2
  let price_errors := validate_shipment_prices se.2.positions
  let ce := validate_shipment_contract env.fetchAgent se.2
  let contract_fields_error := validate_contract_fields env.fetchContract ce.2
  let cte := validate_contract_type_shipment env.fetchAgent env.fetchContract env.region ce.2
  let pme := validate_payment_method env.fetchAgent env.region cte.2
  let payment_error := validate_shipment_payment env.fetchContract env.region pme.2
  (⟨ro.1.1, ro.1.2,
    shipment_issues owner_error se.1 channel_error project_error price_errors
      ce.1 contract_fields_error cte.1 pme.1 payment_error⟩,
   ro.2, pme.2)

/-- Warm-cache condition for `resolve_owner`: the owner reference either
carries a non-blank inline name, or carries no truthy link (so nothing
is fetched), or its cache key already maps to a non-empty cached name. -/
def ownerWarm (cache : OwnerCache) : Option Ref → Bool
  | none => true
  | some o =>
    optNonBlank o.name ||
    (match (if optTruthy o.href then o.href else none) with
     | none => true
     | some h =>
       match List.lookup (if lastSeg h ≠ "" then lastSeg h else h) cache with
       | some c => c != ""
       | none => false)

/-! Gateway retry policy, `_calculate_retry_delay` (moysklad_client.py
lines 145-156) and the 429 loop of `_make_request` (lines 50-106). -/

/-- Embedding of `_calculate_retry_delay`: the parsed `Retry-After`
header value floored at 1 second when present and parseable (`none`
covers an absent, empty or unparseable header), else the capped
exponential backoff. -/
def calculate_retry_delay (retryAfter : Option ℚ) (attempt : Nat) : ℚ :=
  match retryAfter with
  | some v => max v 1
  | none => min 30 ((2 : ℚ) ^ attempt)

/-- One HTTP response as consumed by the `_make_request` loop: a
successful body, a 429 with its parsed `Retry-After`, or another error
status (the 4xx/5xx non-429 branch). -/
inductive HttpResp
  | ok (rows : List Doc)
  | tooMany (retryAfter : Option ℚ)
  | errStatus (code : Nat)

/-- The retry ceiling `max_retry_429` of the client. -/
def max_retry_429 : Nat := 5

/-- A raised Python exception, by handler-relevant class. -/
inductive PyExn
  | httpError (msg : String)
  | runtimeError (msg : String)
  | otherExn (msg : String)
deriving DecidableEq, Repr

/-- Embedding of the `_make_request` retry loop over a finite script of
responses: a success returns its body; a 429 bumps the attempt counter,
raises once the ceiling is exceeded and otherwise records the computed
sleep and retries; another error status raises.  The second component
collects the sleeps performed. -/
def make_request_loop (attempt : Nat) : List HttpResp → Except PyExn (List Doc) × List ℚ
  | [] => (.error (.otherExn "Ошибка запроса"), [])
  | r :: rest =>
    match r with
    | .ok rows => (.ok rows, [])
    | .tooMany ra =>
      let a := attempt + 1
      if max_retry_429 < a then (.error (.httpError "429 Too Many Requests"), [])
      else
        let w := calculate_retry_delay ra a
        let res := make_request_loop a rest
        (res.1, w :: res.2)
    | .errStatus n => (.error (.httpError ("HTTP " ++ toString n)), [])

/-! Period-check orchestration (check_contractors_period lines 159-288,
check_shipments_period lines 703-877, check_sales_period lines
1659-1772, check_commission_reports_period lines 1544-1657) over the
outcome of the underlying gateway fetch.  The per-document predicate
block is abstracted as a `judge` function (true = the document has
issues), since the fold invariants hold for every predicate outcome. -/

/-- Outcome of the gateway fetch underlying a period getter. -/
inductive ApiResult
  | ok (rows : List Doc)
  | raised (e : PyExn)

/-- The daily-limit message raised by the period getters. -/
def dailyLimitMsg : String :=
  "Достигнут дневной лимит API МойСклад (1000 запросов). Попробуйте позже."

/-- The limit test of the HTTPError handler in the period getters. -/
def limit429 (m : String) : Bool :=
  containsStr "429" m || containsLower "лимит" m || containsLower "limit" m

/-- The limit test of the generic handler in the period getters. -/
def limitOnly (m : String) : Bool :=
  containsLower "лимит" m || containsLower "limit" m

/-- Embedding of `get_contractors_for_period` (moysklad_client.py lines
427-454): an HTTPError is turned into the daily-limit RuntimeError or
re-raised; every other exception is turned into the daily-limit
RuntimeError or swallowed into an empty list. -/
def get_contractors_for_period : ApiResult → Except PyExn (List Doc)
  | .ok rows => .ok rows
  | .raised (.httpError m) =>
    if limit429 m then .error (.runtimeError dailyLimitMsg) else .error (.httpError m)
  | .raised (.runtimeError m) =>
    if limitOnly m then .error (.runtimeError dailyLimitMsg) else .ok []
  | .raised (.otherExn m) =>
    if limitOnly m then .error (.runtimeError dailyLimitMsg) else .ok []

/-- Embedding of `get_shipments_for_period` (lines 456-500): like the
contractors getter but re-raising RuntimeErrors; the per-shipment
positions loading never fails the call and is left inside `rows`. -/
def get_shipments_for_period : ApiResult → Except PyExn (List Doc)
  | .ok rows => .ok rows
  | .raised (.httpError m) =>
    if limit429 m then .error (.runtimeError dailyLimitMsg) else .error (.httpError m)
  | .raised (.runtimeError m) => .error (.runtimeError m)
  | .raised (.otherExn m) =>
    if limitOnly m then .error (.runtimeError dailyLimitMsg) else .ok []

/-- Embedding of `get_sales_for_period` (lines 521-538): every exception
is swallowed into an empty list. -/
def get_sales_for_period : ApiResult → List Doc
  | .ok rows => rows
  | .raised _ => []

/-- Embedding of `get_commission_reports_for_period` (lines 502-519):
every exception is swallowed into an empty list. -/
def get_commission_reports_for_period : ApiResult → List Doc
  | .ok rows => rows
  | .raised _ => []

/-- The period report: `errors` keeps the offending documents (the
report dictionaries of the source are abstracted to the documents they
were built from); `errLimit` is the `error` key of the limit branch and
`error_message` the key of the outer exception handler. -/
structure Report where
  total : Nat
  valid : Nat
  errors : List Doc
  status : String
  errLimit : Option String
  error_message : Option String
deriving DecidableEq, Repr

/-- A success report. -/
def successReport (total valid : Nat) (errors : List Doc) : Report :=
  ⟨total, valid, errors, "success", none, none⟩

/-- The limit-error report (`error` key set). -/
def limitErrorReport (m : String) : Report := ⟨0, 0, [], "error", some m, none⟩

/-- The outer-handler error report (`error_message` key set). -/
def outerErrorReport (m : String) : Report := ⟨0, 0, [], "error", none, some m⟩

/-- Message carried by an exception. -/
def exnMsg : PyExn → String
  | .httpError m => m
  | .runtimeError m => m
  | .otherExn m => m

/-- The KZ Kaspi skip of the shipments loop (lines 738-743). -/
def kaspiSkip (region : String) (d : Doc) : Bool :=
  region = "KZ" ∧ containsStr "kaspi" (lowerStr d.description)

/-- The shipments loop fold: skipped documents are neither counted valid
nor reported; a judged document lands in exactly one of the buckets. -/
def shipments_fold (judge : Doc → Bool) (region : String) : List Doc → Nat × List Doc
  | [] => (0, [])
  | d :: rest =>
    if kaspiSkip region d then shipments_fold judge region rest
    else
      let r := shipments_fold judge region rest
      if judge d then (r.1, d :: r.2) else (r.1 + 1, r.2)

/-- The loop fold shared by the contractors, sales and commission-report
checks (no skip). -/
def plain_fold (judge : Doc → Bool) : List Doc → Nat × List Doc
  | [] => (0, [])
  | d :: rest =>
    let r := plain_fold judge rest
    if judge d then (r.1, d :: r.2) else (r.1 + 1, r.2)

/-- Embedding of check_contractors_period: the RuntimeError handler with
the limit test, the outer exception handler, the empty-rows shortcut and
the counting fold. -/
def check_contractors_period (judge : Doc → Bool) (r : ApiResult) : Report :=
  match get_contractors_for_period r with
  | .error (.runtimeError m) =>
    if containsLower "лимит" m then limitErrorReport m else outerErrorReport m
  | .error e => outerErrorReport (exnMsg e)
  | .ok rows =>
    if rows = [] then successReport 0 0 []
    else successReport rows.length (plain_fold judge rows).1 (plain_fold judge rows).2

/-- Embedding of check_shipments_period: like the contractors check but
with the KZ Kaspi skip in the fold. -/
def check_shipments_period (judge : Doc → Bool) (region : String) (r : ApiResult) : Report :=
  match get_shipments_for_period r with
  | .error (.runtimeError m) =>
    if containsLower "лимит" m then limitErrorReport m else outerErrorReport m
  | .error e => outerErrorReport (exnMsg e)
  | .ok rows =>
    if rows = [] then successReport 0 0 []
    else
      successReport rows.length (shipments_fold judge region rows).1
        (shipments_fold judge region rows).2

/-- Embedding of check_sales_period: the getter never raises, so the
outer exception handler of the source is unreachable. -/
def check_sales_period (judge : Doc → Bool) (r : ApiResult) : Report :=
  let sales := get_sales_for_period r
  if sales = [] then successReport 0 0 []
  else successReport sales.length (plain_fold judge sales).1 (plain_fold judge sales).2

/-- Embedding of check_commission_reports_period: the getter never
raises, so the outer exception handler of the source is unreachable. -/
def check_commission_reports_period (judge : Doc → Bool) (r : ApiResult) : Report :=
  let reports := get_commission_reports_for_period r
  if reports = [] then successReport 0 0 []
  else
    successReport reports.length (plain_fold judge reports).1 (plain_fold judge reports).2

/-! Concrete fixtures used by the property statements below. -/

/-- A document carrying a sales channel with the given name and an
optional project value. -/
def projDoc (channel : String) (project : Option FieldVal) : Doc :=
  { emptyDoc with salesChannel := some (.obj (some channel) none), project := project }

/-- A position with the given raw price. -/
def posOf (nm : Option String) (priceRaw quantity : ℚ) : Position :=
  ⟨nm, priceRaw, quantity⟩

/-- A warm evaluation environment whose oracles are never consulted in
the warm-cache scenario. -/
def warmEnv : EvalEnv :=
  ⟨"RB", "Контакт-Центр", fun _ => none, fun _ => none, fun _ => none⟩

/-- An owner cache already holding the referenced employee name. -/
def warmCache : OwnerCache := [("e1", "Иванова Анна")]

/-- A document with a nameless owner reference whose cache key is warm
and with the company-type memo already present. -/
def warmDoc : Doc :=
  { emptyDoc with
      owner := some ⟨none, some "https://api.moysklad.ru/entity/employee/e1"⟩,
      cachedCompanyType := some (some "legal") }

/-! Helper lemmas. -/

/-- A string starting with a non-empty literal is non-empty. -/
theorem ne_empty_append (a b : String) (h : a ≠ "") : a ++ b ≠ "" := by
  intro hc
  apply h
  have hd := congrArg String.data hc
  simp only [String.data_append] at hd
  have ha := (List.append_eq_nil.mp hd).1
  cases a with
  | mk d => cases ha; rfl

/-- The extracted digit string consists of digits. -/
theorem digitsOf_all (s : String) : (digitsOf s).all pyIsDigit = true := by
  simp only [digitsOf, List.all_eq_true]
  intro x hx
  exact (List.mem_filter.mp hx).2

/-- A digit string of positive length is non-empty. -/
theorem digitsOf_ne_nil_of_length (s : String) (n : Nat) (hn : n ≠ 0)
    (h : (digitsOf s).length = n) : digitsOf s ≠ [] := by
  intro hc
  rw [hc] at h
  exact hn h.symm

/-- Region RB of `_validate_phone`: no issue exactly when the digit
string starts with 375 and has 12 digits. -/
theorem validate_phone_rb (phone : String) :
    validate_phone "RB" phone = "" ↔
      leadsL "375".data (digitsOf phone) = true ∧ (digitsOf phone).length = 12 := by
  by_cases hp : phone = ""
  · subst hp
    simp only [validate_phone, if_true]
    constructor
    · intro h; exact absurd h (by decide)
    · rintro ⟨h1, -⟩; exact absurd h1 (by decide)
  · by_cases hc : digitsOf phone = []
    · have hL : validate_phone "RB" phone ≠ "" := by
        simp only [validate_phone, if_neg hp]
        rw [if_pos hc]
        exact ne_empty_append _ _ (by decide)
      constructor
      · intro h; exact absurd h hL
      · rintro ⟨h1, -⟩; rw [hc] at h1; exact absurd h1 (by decide)
    · simp only [validate_phone, if_neg hp, if_neg hc, if_pos rfl]
      by_cases hl : leadsL "375".data (digitsOf phone) = true
      · rw [if_neg (not_not_intro hl)]
        by_cases hlen : (digitsOf phone).length = 12
        · rw [if_neg (not_not_intro hlen)]
          simp [hl, hlen]
        · rw [if_pos hlen]
          constructor
          · intro h; exact absurd h (ne_empty_append _ _ (ne_empty_append _ _ (by decide)))
          · rintro ⟨-, h2⟩; exact absurd h2 hlen
      · rw [if_pos hl]
        constructor
        · intro h; exact absurd h (ne_empty_append _ _ (by decide))
        · rintro ⟨h1, -⟩; exact absurd h1 hl

/-- Region RF of `_validate_phone`: no issue exactly when the digit
string starts with 7 or 8 and has 11 digits. -/
theorem validate_phone_rf (phone : String) :
    validate_phone "RF" phone = "" ↔
      (leadsL "7".data (digitsOf phone) = true ∨ leadsL "8".data (digitsOf phone) = true) ∧
        (digitsOf phone).length = 11 := by
  by_cases hp : phone = ""
  · subst hp
    simp only [validate_phone, if_true]
    constructor
    · intro h; exact absurd h (by decide)
    · rintro ⟨h1, -⟩; rcases h1 with h1 | h1 <;> exact absurd h1 (by decide)
  · by_cases hc : digitsOf phone = []
    · have hL : validate_phone "RF" phone ≠ "" := by
        simp only [validate_phone, if_neg hp]
        rw [if_pos hc]
        exact ne_empty_append _ _ (by decide)
      constructor
      · intro h; exact absurd h hL
      · rintro ⟨h1, -⟩; rw [hc] at h1; rcases h1 with h1 | h1 <;> exact absurd h1 (by decide)
    · simp only [validate_phone, if_neg hp, if_neg hc,
        if_neg (by decide : ¬ ("RF" : String) = "RB"), if_pos rfl]
      by_cases hl : leadsL "7".data (digitsOf phone) = true ∨ leadsL "8".data (digitsOf phone) = true
      · rw [if_neg (not_not_intro hl)]
        by_cases hlen : (digitsOf phone).length = 11
        · rw [if_neg (not_not_intro hlen)]
          simp [hl, hlen]
        · rw [if_pos hlen]
          constructor
          · intro h; exact absurd h (ne_empty_append _ _ (ne_empty_append _ _ (by decide)))
          · rintro ⟨-, h2⟩; exact absurd h2 hlen
      · rw [if_pos hl]
        constructor
        · intro h; exact absurd h (ne_empty_append _ _ (by decide))
        · rintro ⟨h1, -⟩; exact absurd h1 hl

/-- Region KZ of `_validate_phone`: no issue exactly when the digit
string starts with 7 and has 11 digits. -/
theorem validate_phone_kz (phone : String) :
    validate_phone "KZ" phone = "" ↔
      leadsL "7".data (digitsOf phone) = true ∧ (digitsOf phone).length = 11 := by
  by_cases hp : phone = ""
  · subst hp
    simp only [validate_phone, if_true]
    constructor
    · intro h; exact absurd h (by decide)
    · rintro ⟨h1, -⟩; exact absurd h1 (by decide)
  · by_cases hc : digitsOf phone = []
    · have hL : validate_phone "KZ" phone ≠ "" := by
        simp only [validate_phone, if_neg hp]
        rw [if_pos hc]
        exact ne_empty_append _ _ (by decide)
      constructor
      · intro h; exact absurd h hL
      · rintro ⟨h1, -⟩; rw [hc] at h1; exact absurd h1 (by decide)
    · simp only [validate_phone, if_neg hp, if_neg hc,
        if_neg (by decide : ¬ ("KZ" : String) = "RB"),
        if_neg (by decide : ¬ ("KZ" : String) = "RF"), if_pos rfl]
      by_cases hl : leadsL "7".data (digitsOf phone) = true
      · rw [if_neg (not_not_intro hl)]
        by_cases hlen : (digitsOf phone).length = 11
        · rw [if_neg (not_not_intro hlen)]
          simp [hl, hlen]
        · rw [if_pos hlen]
          constructor
          · intro h; exact absurd h (ne_empty_append _ _ (ne_empty_append _ _ (by decide)))
          · rintro ⟨-, h2⟩; exact absurd h2 hlen
      · rw [if_pos hl]
        constructor
        · intro h; exact absurd h (ne_empty_append _ _ (by decide))
        · rintro ⟨h1, -⟩; exact absurd h1 hl

/-- Other regions of `_validate_phone`: no issue exactly when the digit
count lies in [10, 15]. -/
theorem validate_phone_other (region phone : String) (h1 : region ≠ "RB") (h2 : region ≠ "RF")
    (h3 : region ≠ "KZ") :
    validate_phone region phone = "" ↔
      10 ≤ (digitsOf phone).length ∧ (digitsOf phone).length ≤ 15 := by
  by_cases hp : phone = ""
  · subst hp
    constructor
    · intro h
      exfalso
      apply absurd h
      simp only [validate_phone, if_true]
      decide
    · rintro ⟨hlo, -⟩; exact absurd hlo (by decide)
  · by_cases hc : digitsOf phone = []
    · have hL : validate_phone region phone ≠ "" := by
        simp only [validate_phone, if_neg hp]
        rw [if_pos hc]
        exact ne_empty_append _ _ (by decide)
      constructor
      · intro h; exact absurd h hL
      · rintro ⟨hlo, -⟩; rw [hc] at hlo; exact absurd hlo (by decide)
    · simp only [validate_phone, if_neg hp, if_neg hc, if_neg h1, if_neg h2, if_neg h3]
      by_cases hlo : (digitsOf phone).length < 10
      · rw [if_pos hlo]
        constructor
        · intro h; exact absurd h (ne_empty_append _ _ (ne_empty_append _ _ (by decide)))
        · rintro ⟨hge, -⟩; omega
      · rw [if_neg hlo]
        by_cases hhi : (digitsOf phone).length > 15
        · rw [if_pos hhi]
          constructor
          · intro h; exact absurd h (ne_empty_append _ _ (ne_empty_append _ _ (by decide)))
          · rintro ⟨-, hle⟩; omega
        · rw [if_neg hhi]
          constructor
          · intro _; omega
          · intro _; rfl

/-- C4.  Phone validation: after stripping non-digit characters, region
RB requires prefix 375 and exactly 12 digits; region RF requires prefix
7 or 8 and exactly 11 digits; region KZ requires prefix 7 and exactly 11
digits; any other region requires a digit count in [10, 15]; an empty
phone is always an error; phone +375291234567 in RB passes and phone
80291234567 in RB fails. -/
theorem phone_validation_spec (phone : String) :
    (validate_phone "RB" phone = "" ↔
      leadsL "375".data (digitsOf phone) = true ∧ (digitsOf phone).length = 12) ∧
    (validate_phone "RF" phone = "" ↔
      (leadsL "7".data (digitsOf phone) = true ∨ leadsL "8".data (digitsOf phone) = true) ∧
        (digitsOf phone).length = 11) ∧
    (validate_phone "KZ" phone = "" ↔
      leadsL "7".data (digitsOf phone) = true ∧ (digitsOf phone).length = 11) ∧
    (∀ region : String, region ≠ "RB" → region ≠ "RF" → region ≠ "KZ" →
      (validate_phone region phone = "" ↔
        10 ≤ (digitsOf phone).length ∧ (digitsOf phone).length ≤ 15)) ∧
    (∀ region : String, validate_phone region "" ≠ "") ∧
    validate_phone "RB" "+375291234567" = "" ∧
    validate_phone "RB" "80291234567" ≠ "" := by
  refine ⟨validate_phone_rb phone, validate_phone_rf phone, validate_phone_kz phone,
    fun region h1 h2 h3 => validate_phone_other region phone h1 h2 h3, ?_, by decide, by decide⟩
  intro region
  simp only [validate_phone, if_true]
  decide

/-- C4 witness: the theorem instantiated at a non-special region and a
concrete phone. -/
theorem phone_validation_spec_witness :
    validate_phone "UA" "+1 234 567 8901" = "" := by
  have h := (phone_validation_spec "+1 234 567 8901").2.2.2.1 "UA"
    (by decide) (by decide) (by decide)
  exact h.mpr (by decide)

/-- Zero-price count for the shipments price validator. -/
theorem shipment_prices_count (ps : List Position) :
    (validate_shipment_prices ps).length = ps.countP (fun p => decide (p.priceRaw / 100 = 0)) := by
  induction ps with
  | nil => rfl
  | cons p rest ih =>
    have hiff : (p.priceRaw / 100 = 0) ↔ p.priceRaw = 0 := by
      rw [div_eq_zero_iff]; norm_num
    by_cases h : p.priceRaw = 0 <;>
      simp [validate_shipment_prices, List.countP_cons, ih, hiff, h]

/-- Zero-price count for the retail-sale price validator. -/
theorem sale_prices_count (ps : List Position) :
    (validate_sale_prices ps).length = ps.countP (fun p => decide (p.priceRaw / 100 = 0)) := by
  induction ps with
  | nil => rfl
  | cons p rest ih =>
    have hiff : (p.priceRaw / 100 = 0) ↔ p.priceRaw = 0 := by
      rw [div_eq_zero_iff]; norm_num
    by_cases h : p.priceRaw = 0 <;>
      simp [validate_sale_prices, List.countP_cons, ih, hiff, h]

/-- Zero-price count for the commission-report price validator. -/
theorem commission_prices_count (ps : List Position) :
    (validate_commission_prices ps).length =
      ps.countP (fun p => decide (p.priceRaw / 100 = 0)) := by
  induction ps with
  | nil => rfl
  | cons p rest ih =>
    have hiff : (p.priceRaw / 100 = 0) ↔ p.priceRaw = 0 := by
      rw [div_eq_zero_iff]; norm_num
    by_cases h : p.priceRaw = 0 <;>
      simp [validate_commission_prices, List.countP_cons, ih, hiff, h]

/-- C7.  Zero-price detection: in every price validator (none of which
reads the region or the company type), the number of zero-price records
equals the number of positions whose unit price is exactly 0; a position
with unit price 0.01 (raw value 1) contributes no record, and a position
with unit price 0 contributes exactly one record, at the head of the
result. -/
theorem zero_price_spec (ps : List Position) (nm : Option String) (q : ℚ) :
    ((validate_shipment_prices ps).length =
      ps.countP (fun p => decide (p.priceRaw / 100 = 0))) ∧
    ((validate_sale_prices ps).length =
      ps.countP (fun p => decide (p.priceRaw / 100 = 0))) ∧
    ((validate_commission_prices ps).length =
      ps.countP (fun p => decide (p.priceRaw / 100 = 0))) ∧
    validate_shipment_prices (posOf nm 1 q :: ps) = validate_shipment_prices ps ∧
    validate_sale_prices (posOf nm 1 q :: ps) = validate_sale_prices ps ∧
    validate_shipment_prices (posOf nm 0 q :: ps) =
      zeroPriceRecord (posOf nm 0 q) :: validate_shipment_prices ps ∧
    validate_sale_prices (posOf nm 0 q :: ps) =
      zeroPriceRecord (posOf nm 0 q) :: validate_sale_prices ps := by
  refine ⟨shipment_prices_count ps, sale_prices_count ps, commission_prices_count ps,
    ?_, ?_, ?_, ?_⟩
  · have h : ((posOf nm 1 q).priceRaw / 100 : ℚ) ≠ 0 := by norm_num [posOf]
    simp [validate_shipment_prices, h]
  · have h : ((posOf nm 1 q).priceRaw / 100 : ℚ) ≠ 0 := by norm_num [posOf]
    simp [validate_sale_prices, h]
  · have h : ((posOf nm 0 q).priceRaw / 100 : ℚ) = 0 := by norm_num [posOf]
    simp [validate_shipment_prices, h]
  · have h : ((posOf nm 0 q).priceRaw / 100 : ℚ) = 0 := by norm_num [posOf]
    simp [validate_sale_prices, h]

/-- Length of a conditional singleton. -/
theorem length_ite_single (c : Prop) [Decidable c] (x : String) :
    (if c then [x] else ([] : List String)).length = if c then 1 else 0 := by
  split_ifs <;> rfl

/-- Value of `countNonEmpty` on the empty list. -/
theorem countNonEmpty_nil : countNonEmpty [] = 0 := rfl

/-- Unfolding of `countNonEmpty` over a cons. -/
theorem countNonEmpty_cons (s : String) (l : List String) :
    countNonEmpty (s :: l) = (if s ≠ "" then 1 else 0) + countNonEmpty l := by
  by_cases h : s = "" <;> simp [countNonEmpty, List.filter_cons, h, Nat.add_comm]

/-- C8.  Issue assembly: for both the shipments and the commission-report
evaluators, the length of the assembled `issues` list equals the number
of non-empty string predicate results plus one entry per price error —
every failing predicate contributes exactly one record and none is
dropped or duplicated. -/
theorem issue_assembly_count_spec (o s ch pr c cf ct pm pay : String)
    (pes : List PriceError) :
    (shipment_issues o s ch pr pes c cf ct pm pay).length =
      countNonEmpty [o, s, ch, pr] + pes.length + countNonEmpty [c, cf, ct, pm, pay] ∧
    (commission_issues pes ch pr c cf s pm pay).length =
      pes.length + countNonEmpty [ch, pr, c, cf, s, pm, pay] := by
  constructor <;>
  · simp only [shipment_issues, commission_issues, List.length_append, List.length_map,
      length_ite_single, countNonEmpty_cons, countNonEmpty_nil]
    ring

/-- C6.  Gateway 429 handling: the retry delay is the parsed Retry-After
value floored at 1 second when present, else min(30, 2^attempt) seconds
(attempt 3 with no header sleeps exactly 8 seconds); five consecutive
429 responses are retried with the capped exponential sleeps, and a
sixth 429 raises a terminal error instead of retrying further. -/
theorem retry_delay_spec :
    (∀ (r : ℚ) (a : Nat), calculate_retry_delay (some r) a = max r 1 ∧
        1 ≤ calculate_retry_delay (some r) a) ∧
    (∀ a : Nat, calculate_retry_delay none a = min 30 ((2 : ℚ) ^ a)) ∧
    calculate_retry_delay none 3 = 8 ∧
    (∀ rows : List Doc,
      make_request_loop 0
          [HttpResp.tooMany none, .tooMany none, .tooMany none, .tooMany none, .tooMany none,
            .ok rows] =
        (.ok rows, [2, 4, 8, 16, 30])) ∧
    (∀ (r1 r2 r3 r4 r5 r6 : Option ℚ) (rest : List HttpResp),
      (make_request_loop 0
          ([HttpResp.tooMany r1, .tooMany r2, .tooMany r3, .tooMany r4, .tooMany r5,
            .tooMany r6] ++ rest)).1 =
        .error (.httpError "429 Too Many Requests")) := by
  refine ⟨fun r a => ⟨rfl, le_max_right r 1⟩, fun a => rfl, ?_, ?_, ?_⟩
  · show min (30 : ℚ) (2 ^ 3) = 8
    norm_num
  · intro rows
    norm_num [make_request_loop, calculate_retry_delay, max_retry_429]
  · intro r1 r2 r3 r4 r5 r6 rest
    norm_num [make_request_loop, max_retry_429]

/-- Counting invariant of the no-skip loop fold. -/
theorem plain_fold_total (judge : Doc → Bool) (l : List Doc) :
    (plain_fold judge l).1 + (plain_fold judge l).2.length = l.length := by
  induction l with
  | nil => rfl
  | cons d rest ih =>
    by_cases h : judge d = true <;> simp [plain_fold, h] <;> omega

/-- Counting invariant of the shipments loop fold: valid, reported and
skipped documents partition the fetched list. -/
theorem shipments_fold_total (judge : Doc → Bool) (region : String) (l : List Doc) :
    (shipments_fold judge region l).1 + (shipments_fold judge region l).2.length
      + l.countP (kaspiSkip region) = l.length := by
  induction l with
  | nil => rfl
  | cons d rest ih =>
    by_cases hk : kaspiSkip region d = true
    · simp [shipments_fold, hk, List.countP_cons]
      omega
    · by_cases h : judge d = true <;>
        simp [shipments_fold, hk, h, List.countP_cons] <;> omega

/-- C10.  Success reports satisfy total = valid + |errors| for the
contractors, sales and commission checks; the shipments check counts all
fetched documents in total while KZ Kaspi documents are skipped after
being counted, so valid + |errors| + skipped = total there, and the
plain equation holds again whenever the region is not KZ. -/
theorem report_fold_invariant_spec (judge : Doc → Bool) (region : String) (docs : List Doc)
    (r : ApiResult) :
    ((check_contractors_period judge r).status = "success" →
      (check_contractors_period judge r).valid + (check_contractors_period judge r).errors.length
        = (check_contractors_period judge r).total) ∧
    ((check_sales_period judge r).status = "success" →
      (check_sales_period judge r).valid + (check_sales_period judge r).errors.length
        = (check_sales_period judge r).total) ∧
    ((check_commission_reports_period judge r).status = "success" →
      (check_commission_reports_period judge r).valid
          + (check_commission_reports_period judge r).errors.length
        = (check_commission_reports_period judge r).total) ∧
    (check_shipments_period judge region (.ok docs)).status = "success" ∧
    (check_shipments_period judge region (.ok docs)).total = docs.length ∧
    ((check_shipments_period judge region (.ok docs)).valid
        + (check_shipments_period judge region (.ok docs)).errors.length
        + docs.countP (kaspiSkip region)
      = (check_shipments_period judge region (.ok docs)).total) ∧
    (region ≠ "KZ" →
      (check_shipments_period judge region (.ok docs)).valid
          + (check_shipments_period judge region (.ok docs)).errors.length
        = (check_shipments_period judge region (.ok docs)).total) := by
  have hship :
      (check_shipments_period judge region (.ok docs)).status = "success" ∧
      (check_shipments_period judge region (.ok docs)).total = docs.length ∧
      ((check_shipments_period judge region (.ok docs)).valid
          + (check_shipments_period judge region (.ok docs)).errors.length
          + docs.countP (kaspiSkip region)
        = (check_shipments_period judge region (.ok docs)).total) := by
    by_cases hd : docs = []
    · subst hd
      refine ⟨rfl, rfl, ?_⟩
      simp [check_shipments_period, get_shipments_for_period, successReport]
    · simp only [check_shipments_period, get_shipments_for_period, if_neg hd]
      exact ⟨rfl, rfl, shipments_fold_total judge region docs⟩
  refine ⟨?_, ?_, ?_, hship.1, hship.2.1, hship.2.2, ?_⟩
  · rcases r with rows | e
    · by_cases hr : rows = [] <;>
        simp [check_contractors_period, get_contractors_for_period, hr, successReport,
          plain_fold_total]
    · rcases e with m | m | m <;>
        simp only [check_contractors_period, get_contractors_for_period] <;>
        split_ifs <;>
        simp [limitErrorReport, outerErrorReport, successReport, exnMsg, plain_fold_total,
          (by decide : containsLower "лимит" dailyLimitMsg = true)]
  · rcases r with rows | e
    · by_cases hr : rows = [] <;>
        simp [check_sales_period, get_sales_for_period, hr, successReport, plain_fold_total]
    · simp [check_sales_period, get_sales_for_period, successReport]
  · rcases r with rows | e
    · by_cases hr : rows = [] <;>
        simp [check_commission_reports_period, get_commission_reports_for_period, hr,
          successReport, plain_fold_total]
    · simp [check_commission_reports_period, get_commission_reports_for_period, successReport]
  · intro hreg
    have hz : docs.countP (kaspiSkip region) = 0 := by
      rw [List.countP_eq_zero]
      intro d _
      simp [kaspiSkip, hreg]
    have := hship.2.2
    omega

/-- C10 witness: the theorem instantiated at a concrete region, document
list and fetch outcome. -/
theorem report_fold_invariant_spec_witness :
    (check_shipments_period (fun _ => true) "RB" (.ok [emptyDoc])).valid
        + (check_shipments_period (fun _ => true) "RB" (.ok [emptyDoc])).errors.length
      = (check_shipments_period (fun _ => true) "RB" (.ok [emptyDoc])).total := by
  exact (report_fold_invariant_spec (fun _ => true) "RB" [emptyDoc]
    (.ok [emptyDoc])).2.2.2.2.2.2 (by decide)

/-- C2 counterexample: a non-2xx, non-429 failure of the retail-sales
fetch is swallowed by the client (which returns an empty list), so the
check reports status success, not status error as claimed. -/
theorem sales_fetch_error_reported_success :
    (check_sales_period (fun _ => false)
        (.raised (.httpError "HTTP 500: Internal Server Error"))).status ≠ "error" := by
  simp [check_sales_period, get_sales_for_period, successReport]

/-- C2 as amended.  A fetch failure (non-2xx non-429 response, rate-limit
exhaustion surfaced as an HTTPError, or the daily-quota RuntimeError) is
reported as status error with the message kept in the report for the
contractors and shipments checks, and no exception escapes any check;
but the sales and commission-report checks receive an empty document
list from their swallowing getters and report status success with zero
totals instead. -/
theorem period_check_error_isolation (judge : Doc → Bool) (region m : String) :
    (check_contractors_period judge (.raised (.httpError m))).status = "error" ∧
    (check_shipments_period judge region (.raised (.httpError m))).status = "error" ∧
    (check_contractors_period judge (.raised (.runtimeError dailyLimitMsg))).status = "error" ∧
    (check_shipments_period judge region (.raised (.runtimeError dailyLimitMsg))).status
      = "error" ∧
    (check_sales_period judge (.raised (.httpError m))).status = "success" ∧
    (check_sales_period judge (.raised (.httpError m))).total = 0 ∧
    (check_sales_period judge (.raised (.httpError m))).errors = [] ∧
    (check_commission_reports_period judge (.raised (.httpError m))).status = "success" ∧
    (check_commission_reports_period judge (.raised (.httpError m))).total = 0 ∧
    (check_commission_reports_period judge (.raised (.httpError m))).errors = [] := by
  have hd1 : containsLower "лимит" dailyLimitMsg = true := by decide
  have hd2 : limitOnly dailyLimitMsg = true := by decide
  refine ⟨?_, ?_, ?_, ?_, ?_, ?_, ?_, ?_, ?_, ?_⟩
  · by_cases hl : limit429 m = true <;>
      simp [check_contractors_period, get_contractors_for_period, hl, hd1, limitErrorReport,
        outerErrorReport, exnMsg]
  · by_cases hl : limit429 m = true <;>
      simp [check_shipments_period, get_shipments_for_period, hl, hd1, limitErrorReport,
        outerErrorReport, exnMsg]
  · simp [check_contractors_period, get_contractors_for_period, hd1, hd2, limitErrorReport]
  · simp [check_shipments_period, get_shipments_for_period, hd1, limitErrorReport]
  · simp [check_sales_period, get_sales_for_period, successReport]
  · simp [check_sales_period, get_sales_for_period, successReport]
  · simp [check_sales_period, get_sales_for_period, successReport]
  · simp [check_commission_reports_period, get_commission_reports_for_period, successReport]
  · simp [check_commission_reports_period, get_commission_reports_for_period, successReport]
  · simp [check_commission_reports_period, get_commission_reports_for_period, successReport]

/-- Company-type gate of `_validate_unp`: every other company type
yields no issue. -/
theorem validate_unp_skip (region : String) (companyType unp : Option String)
    (h : ¬ (lowerStr (companyType.getD "") = "legal" ∨
      lowerStr (companyType.getD "") = "entrepreneur")) :
    validate_unp region companyType unp = "" := by
  simp only [validate_unp]
  rw [if_pos h]

/-- Region RB of `_validate_unp`: for the gated company types, a present
value passes exactly when it contains 9 digits. -/
theorem validate_unp_rb (companyType : Option String) (u : String)
    (h : lowerStr (companyType.getD "") = "legal" ∨
      lowerStr (companyType.getD "") = "entrepreneur") :
    validate_unp "RB" companyType (some u) = "" ↔ (digitsOf u).length = 9 := by
  simp only [validate_unp]
  rw [if_neg (not_not_intro h)]
  by_cases hlen : (digitsOf u).length = 9
  · rw [if_neg (by simp [hlen]), if_neg (by simp), if_neg (by simp),
      if_neg (not_not_intro ⟨digitsOf_ne_nil_of_length u 9 (by decide) hlen, digitsOf_all u⟩)]
    simp [hlen]
  · rw [if_pos ⟨trivial, hlen⟩]
    constructor
    · intro hx; exact absurd hx (ne_empty_append _ _ (ne_empty_append _ _ (by decide)))
    · intro hx; exact absurd hx hlen

/-- Region RF of `_validate_unp` for legal entities: a present value
passes exactly when it contains 10 digits. -/
theorem validate_unp_rf_legal (companyType : Option String) (u : String)
    (h : lowerStr (companyType.getD "") = "legal") :
    validate_unp "RF" companyType (some u) = "" ↔ (digitsOf u).length = 10 := by
  simp only [validate_unp]
  rw [if_neg (not_not_intro (Or.inl h))]
  by_cases hlen : (digitsOf u).length = 10
  · rw [if_neg (by simp), if_neg (by simp [hlen]), if_neg (by simp [h]),
      if_neg (not_not_intro ⟨digitsOf_ne_nil_of_length u 10 (by decide) hlen, digitsOf_all u⟩)]
    simp [hlen]
  · rw [if_neg (by simp), if_pos ⟨trivial, h, hlen⟩]
    constructor
    · intro hx; exact absurd hx (ne_empty_append _ _ (ne_empty_append _ _ (by decide)))
    · intro hx; exact absurd hx hlen

/-- Region RF of `_validate_unp` for entrepreneurs: a present value
passes exactly when it contains 12 digits. -/
theorem validate_unp_rf_entrepreneur (companyType : Option String) (u : String)
    (h : lowerStr (companyType.getD "") = "entrepreneur") :
    validate_unp "RF" companyType (some u) = "" ↔ (digitsOf u).length = 12 := by
  simp only [validate_unp]
  rw [if_neg (not_not_intro (Or.inr h))]
  by_cases hlen : (digitsOf u).length = 12
  · rw [if_neg (by simp), if_neg (by simp [h]), if_neg (by simp [hlen]),
      if_neg (not_not_intro ⟨digitsOf_ne_nil_of_length u 12 (by decide) hlen, digitsOf_all u⟩)]
    simp [hlen]
  · rw [if_neg (by simp), if_neg (by simp [h]), if_pos ⟨trivial, h, hlen⟩]
    constructor
    · intro hx; exact absurd hx (ne_empty_append _ _ (ne_empty_append _ _ (by decide)))
    · intro hx; exact absurd hx hlen

/-- Digits-only check of `_validate_unp`: in every region, a gated
company type with a value holding no digit at all gets an issue. -/
theorem validate_unp_nodigits (region : String) (companyType : Option String) (u : String)
    (h : lowerStr (companyType.getD "") = "legal" ∨
      lowerStr (companyType.getD "") = "entrepreneur")
    (hd : digitsOf u = []) : validate_unp region companyType (some u) ≠ "" := by
  simp only [validate_unp]
  rw [if_neg (not_not_intro h)]
  by_cases h1 : region = "RB"
  · rw [if_pos ⟨h1, by simp [hd]⟩]
    exact ne_empty_append _ _ (ne_empty_append _ _ (by decide))
  · rw [if_neg (by simp [h1])]
    by_cases h2 : region = "RF"
    · rcases h with h | h
      · rw [if_pos ⟨h2, h, by simp [hd]⟩]
        exact ne_empty_append _ _ (ne_empty_append _ _ (by decide))
      · rw [if_neg (by simp [h]), if_pos ⟨h2, h, by simp [hd]⟩]
        exact ne_empty_append _ _ (ne_empty_append _ _ (by decide))
    · rw [if_neg (by simp [h2]), if_neg (by simp [h2]), if_pos (by simp [hd])]
      exact ne_empty_append _ _ (by decide)

/-- Other regions of `_validate_unp`: only the digits-only check
applies, so a present value passes exactly when it holds a digit. -/
theorem validate_unp_other (region : String) (companyType : Option String) (u : String)
    (h : lowerStr (companyType.getD "") = "legal" ∨
      lowerStr (companyType.getD "") = "entrepreneur")
    (h1 : region ≠ "RB") (h2 : region ≠ "RF") :
    validate_unp region companyType (some u) = "" ↔ digitsOf u ≠ [] := by
  simp only [validate_unp]
  rw [if_neg (not_not_intro h), if_neg (by simp [h1]), if_neg (by simp [h2]),
    if_neg (by simp [h2])]
  by_cases hc : digitsOf u = []
  · rw [if_pos (by simp [hc])]
    constructor
    · intro hx; exact absurd hx (ne_empty_append _ _ (by decide))
    · intro hx; exact absurd hc hx
  · rw [if_neg (not_not_intro ⟨hc, digitsOf_all u⟩)]
    simp [hc]

/-- C5.  Tax-id validation: an issue is only possible for company types
legal and entrepreneur; region RB requires exactly 9 digits in the
extracted value; region RF requires 10 digits for legal and 12 for
entrepreneur; and the digits-only check applies in every region (a
value with no digit is always an issue, and outside RB/RF it is the only
possible issue). -/
theorem tax_id_validation_spec (region : String) (companyType : Option String) (u : String) :
    (∀ unp : Option String,
      ¬ (lowerStr (companyType.getD "") = "legal" ∨
          lowerStr (companyType.getD "") = "entrepreneur") →
      validate_unp region companyType unp = "") ∧
    ((lowerStr (companyType.getD "") = "legal" ∨
        lowerStr (companyType.getD "") = "entrepreneur") →
      (validate_unp "RB" companyType (some u) = "" ↔ (digitsOf u).length = 9)) ∧
    (lowerStr (companyType.getD "") = "legal" →
      (validate_unp "RF" companyType (some u) = "" ↔ (digitsOf u).length = 10)) ∧
    (lowerStr (companyType.getD "") = "entrepreneur" →
      (validate_unp "RF" companyType (some u) = "" ↔ (digitsOf u).length = 12)) ∧
    ((lowerStr (companyType.getD "") = "legal" ∨
        lowerStr (companyType.getD "") = "entrepreneur") →
      digitsOf u = [] → validate_unp region companyType (some u) ≠ "") ∧
    ((lowerStr (companyType.getD "") = "legal" ∨
        lowerStr (companyType.getD "") = "entrepreneur") →
      region ≠ "RB" → region ≠ "RF" →
      (validate_unp region companyType (some u) = "" ↔ digitsOf u ≠ [])) := by
  exact ⟨fun unp h => validate_unp_skip region companyType unp h,
    fun h => validate_unp_rb companyType u h,
    fun h => validate_unp_rf_legal companyType u h,
    fun h => validate_unp_rf_entrepreneur companyType u h,
    fun h hd => validate_unp_nodigits region companyType u h hd,
    fun h h1 h2 => validate_unp_other region companyType u h h1 h2⟩

/-- C5 witness: a 9-digit value for an RB legal entity passes. -/
theorem tax_id_validation_spec_witness :
    validate_unp "RB" (some "legal") (some "123456789") = "" := by
  have h := (tax_id_validation_spec "RB" (some "legal") "123456789").2.1
    (Or.inl (by decide))
  exact h.mpr (by decide)

/-- Region and positive-total gates of the payment check collapse to the
condition dispatch. -/
theorem shipment_payment_check_gate (region cond : String) (days : Int) (total payed : ℚ)
    (hreg : region = "RB" ∨ region = "RF") (htot : 0 < total) :
    shipment_payment_check region cond days total payed =
      payment_dispatch cond days total payed := by
  rcases hreg with h | h <;> subst h <;> simp [shipment_payment_check, htot.not_le]

/-- Dispatch on condition Без договора: exempt. -/
theorem dispatch_skip_bez (d : Int) (t p : ℚ) : payment_dispatch "Без договора" d t p = "" := by
  have h1 : skip_conditions.contains (norm "Без договора") = true := by decide
  simp only [payment_dispatch, h1]
  rfl

/-- Dispatch on the sponsorship condition: exempt. -/
theorem dispatch_skip_sponsor (d : Int) (t p : ℚ) :
    payment_dispatch "предоставления безвозмездной (спонсорской) помощи" d t p = "" := by
  have h1 : skip_conditions.contains
      (norm "предоставления безвозмездной (спонсорской) помощи") = true := by decide
  simp only [payment_dispatch, h1]
  rfl

/-- Dispatch on condition Договор комиссии: exempt. -/
theorem dispatch_skip_komissii (d : Int) (t p : ℚ) :
    payment_dispatch "Договор комиссии" d t p = "" := by
  have h1 : skip_conditions.contains (norm "Договор комиссии") = true := by decide
  simp only [payment_dispatch, h1]
  rfl

/-- Dispatch on condition Предоплата: the full-payment test. -/
theorem dispatch_pre (d : Int) (t p : ℚ) :
    payment_dispatch "Предоплата" d t p =
      if p + 1/100 < t then "Условие договора " ++ "Предоплата" ++ ": требуется 100% оплата"
      else "" := by
  have h1 : skip_conditions.contains (norm "Предоплата") = false := by decide
  have h2 : (norm "Предоплата" == norm "Предоплата") = true := by decide
  simp only [payment_dispatch, h1, h2, Bool.false_eq_true, if_false, if_true]

/-- Dispatch on condition Отсрочка 16-30 дней: the deferred test with
threshold 30. -/
theorem dispatch_ots1630 (d : Int) (t p : ℚ) :
    payment_dispatch "Отсрочка 16-30 дней" d t p =
      if 30 < d ∧ p + 1/100 < t then "Отсрочка 16-30 дней истекла" else "" := by
  have h1 : skip_conditions.contains (norm "Отсрочка 16-30 дней") = false := by decide
  have h2 : (norm "Отсрочка 16-30 дней" == norm "Предоплата") = false := by decide
  have h3 : (hasSubL "отсрочка1630".data (norm "Отсрочка 16-30 дней") ||
      hasSubL "отсрочка16-30".data (norm "Отсрочка 16-30 дней")) = true := by decide
  simp only [payment_dispatch, h1, h2, h3, Bool.false_eq_true, if_false, if_true]

/-- Dispatch on condition Отсрочка 30-60 дней: the deferred test with
threshold 60. -/
theorem dispatch_ots3060 (d : Int) (t p : ℚ) :
    payment_dispatch "Отсрочка 30-60 дней" d t p =
      if 60 < d ∧ p + 1/100 < t then "Отсрочка 30-60 дней истекла" else "" := by
  have h1 : skip_conditions.contains (norm "Отсрочка 30-60 дней") = false := by decide
  have h2 : (norm "Отсрочка 30-60 дней" == norm "Предоплата") = false := by decide
  have h3 : (hasSubL "отсрочка1630".data (norm "Отсрочка 30-60 дней") ||
      hasSubL "отсрочка16-30".data (norm "Отсрочка 30-60 дней")) = false := by decide
  have h4 : (hasSubL "отсрочка3060".data (norm "Отсрочка 30-60 дней") ||
      hasSubL "отсрочка30-60".data (norm "Отсрочка 30-60 дней")) = true := by decide
  simp only [payment_dispatch, h1, h2, h3, h4, Bool.false_eq_true, if_false, if_true]

/-- Dispatch on condition Отсрочка 60 и более дней: the deferred test
with threshold 61. -/
theorem dispatch_ots60 (d : Int) (t p : ℚ) :
    payment_dispatch "Отсрочка 60 и более дней" d t p =
      if 61 < d ∧ p + 1/100 < t then "Отсрочка 60+ дней истекла" else "" := by
  have h1 : skip_conditions.contains (norm "Отсрочка 60 и более дней") = false := by decide
  have h2 : (norm "Отсрочка 60 и более дней" == norm "Предоплата") = false := by decide
  have h3 : (hasSubL "отсрочка1630".data (norm "Отсрочка 60 и более дней") ||
      hasSubL "отсрочка16-30".data (norm "Отсрочка 60 и более дней")) = false := by decide
  have h4 : (hasSubL "отсрочка3060".data (norm "Отсрочка 60 и более дней") ||
      hasSubL "отсрочка30-60".data (norm "Отсрочка 60 и более дней")) = false := by decide
  have h5 : (hasSubL "отсрочка60".data (norm "Отсрочка 60 и более дней") &&
      hasSubL "более".data (norm "Отсрочка 60 и более дней")) = true := by decide
  simp only [payment_dispatch, h1, h2, h3, h4, h5, Bool.false_eq_true, if_false, if_true]

/-- Dispatch on an unrecognized condition: no check. -/
theorem dispatch_unrecognized (cond : String) (d : Int) (t p : ℚ)
    (h1 : skip_conditions.contains (norm cond) = false)
    (h2 : (norm cond == norm "Предоплата") = false)
    (h3 : (hasSubL "отсрочка1630".data (norm cond) ||
      hasSubL "отсрочка16-30".data (norm cond)) = false)
    (h4 : (hasSubL "отсрочка3060".data (norm cond) ||
      hasSubL "отсрочка30-60".data (norm cond)) = false)
    (h5 : (hasSubL "отсрочка60".data (norm cond) &&
      hasSubL "более".data (norm cond)) = false) :
    payment_dispatch cond d t p = "" := by
  simp only [payment_dispatch, h1, h2, h3, h4, h5, Bool.false_eq_true, if_false]

/-- The full-payment branch passes exactly when the payment covers the
total minus the tolerance. -/
theorem full_payment_iff (t p : ℚ) (msg : String) (hmsg : msg ≠ "") :
    (if p + 1/100 < t then msg else "") = "" ↔ t - 1/100 ≤ p := by
  by_cases hlt : p + 1/100 < t
  · rw [if_pos hlt]
    exact iff_of_false hmsg (by intro hle; linarith)
  · rw [if_neg hlt]
    exact iff_of_true rfl (by push_neg at hlt; linarith)

/-- The deferred branch passes exactly when overdue implies covered. -/
theorem deferred_payment_iff (n d : Int) (t p : ℚ) (msg : String) (hmsg : msg ≠ "") :
    (if n < d ∧ p + 1/100 < t then msg else "") = "" ↔ (n < d → t - 1/100 ≤ p) := by
  by_cases hc : n < d ∧ p + 1/100 < t
  · rw [if_pos hc]
    refine iff_of_false hmsg ?_
    intro himp
    have := himp hc.1
    linarith [hc.2]
  · rw [if_neg hc]
    refine iff_of_true rfl ?_
    intro hd
    by_contra hnot
    exact hc ⟨hd, by linarith [lt_of_not_le hnot]⟩

/-- C1.  Payment-deadline evaluation (active only for regions RB and RF,
with a positive document total): the three exempt conditions yield no
payment issue; Предоплата requires payedSum at least sum - 0.01
unconditionally; Отсрочка 16-30 дней requires full payment only once
more than 30 days elapsed, Отсрочка 30-60 дней once more than 60 days,
Отсрочка 60 и более дней once more than 61 days; and a condition that
matches none of the recognized patterns yields no payment issue. -/
theorem payment_deadline_dispatch_spec (region : String) (days : Int) (total payed : ℚ)
    (hreg : region = "RB" ∨ region = "RF") (htot : 0 < total) :
    shipment_payment_check region "Без договора" days total payed = "" ∧
    shipment_payment_check region "предоставления безвозмездной (спонсорской) помощи"
      days total payed = "" ∧
    shipment_payment_check region "Договор комиссии" days total payed = "" ∧
    (shipment_payment_check region "Предоплата" days total payed = "" ↔
      total - 1/100 ≤ payed) ∧
    (shipment_payment_check region "Отсрочка 16-30 дней" days total payed = "" ↔
      (30 < days → total - 1/100 ≤ payed)) ∧
    (shipment_payment_check region "Отсрочка 30-60 дней" days total payed = "" ↔
      (60 < days → total - 1/100 ≤ payed)) ∧
    (shipment_payment_check region "Отсрочка 60 и более дней" days total payed = "" ↔
      (61 < days → total - 1/100 ≤ payed)) ∧
    (∀ cond : String, skip_conditions.contains (norm cond) = false →
      (norm cond == norm "Предоплата") = false →
      (hasSubL "отсрочка1630".data (norm cond) ||
        hasSubL "отсрочка16-30".data (norm cond)) = false →
      (hasSubL "отсрочка3060".data (norm cond) ||
        hasSubL "отсрочка30-60".data (norm cond)) = false →
      (hasSubL "отсрочка60".data (norm cond) && hasSubL "более".data (norm cond)) = false →
      shipment_payment_check region cond days total payed = "") := by
  refine ⟨?_, ?_, ?_, ?_, ?_, ?_, ?_, ?_⟩
  · rw [shipment_payment_check_gate _ _ _ _ _ hreg htot, dispatch_skip_bez]
  · rw [shipment_payment_check_gate _ _ _ _ _ hreg htot, dispatch_skip_sponsor]
  · rw [shipment_payment_check_gate _ _ _ _ _ hreg htot, dispatch_skip_komissii]
  · rw [shipment_payment_check_gate _ _ _ _ _ hreg htot, dispatch_pre]
    exact full_payment_iff total payed _
      (ne_empty_append _ _ (ne_empty_append _ _ (by decide)))
  · rw [shipment_payment_check_gate _ _ _ _ _ hreg htot, dispatch_ots1630]
    exact deferred_payment_iff 30 days total payed _ (by decide)
  · rw [shipment_payment_check_gate _ _ _ _ _ hreg htot, dispatch_ots3060]
    exact deferred_payment_iff 60 days total payed _ (by decide)
  · rw [shipment_payment_check_gate _ _ _ _ _ hreg htot, dispatch_ots60]
    exact deferred_payment_iff 61 days total payed _ (by decide)
  · intro cond h1 h2 h3 h4 h5
    rw [shipment_payment_check_gate _ _ _ _ _ hreg htot,
      dispatch_unrecognized cond days total payed h1 h2 h3 h4 h5]

/-- C1 witness: an unpaid shipment 35 days old under Отсрочка 16-30 дней
is flagged. -/
theorem payment_deadline_dispatch_spec_witness :
    shipment_payment_check "RB" "Отсрочка 16-30 дней" 35 100 0 ≠ "" := by
  have h := (payment_deadline_dispatch_spec "RB" 35 100 0 (Or.inl rfl)
    (by norm_num)).2.2.2.2.1
  intro hc
  have := h.mp hc (by norm_num)
  norm_num at this

/-- Channel-name extraction on a channel-carrying document. -/
theorem projDoc_channel (ch : String) (prv : Option FieldVal) (hch : ch ≠ "") :
    projectChannelName (projDoc ch prv) = ch := by
  simp [projectChannelName, projDoc, hch]

/-- Project field of the channel-carrying document. -/
theorem projDoc_project (ch : String) (prv : Option FieldVal) :
    (projDoc ch prv).project = prv := rfl

/-- A channel matching no table entry yields no issue. -/
theorem validate_project_no_entry (ch : String) (prv : Option FieldVal) (hch : ch ≠ "")
    (hf : findChannelPair (norm ch) = none) :
    validate_shipment_project (projDoc ch prv) = "" := by
  simp only [validate_shipment_project, projDoc_channel ch prv hch, if_neg hch, hf]

/-- A channel mapping to the empty project set yields no issue. -/
theorem validate_project_empty_set (ch k : String) (prv : Option FieldVal) (hch : ch ≠ "")
    (hf : findChannelPair (norm ch) = some (k, [])) :
    validate_shipment_project (projDoc ch prv) = "" := by
  simp only [validate_shipment_project, projDoc_channel ch prv hch, if_neg hch, hf, if_true]

/-- A string whose character list is non-trivial is non-empty. -/
theorem ne_empty_of_data (s : String) (h : s.data.length ≠ 0) : s ≠ "" := by
  intro hc
  rw [hc] at h
  exact h rfl

/-- The missing-project message is non-empty. -/
theorem msg_need_ne (ch j : String) :
    ("Для канала " ++ ch ++ " должен быть указан проект. Ожидается: " ++ j : String) ≠ "" := by
  apply ne_empty_of_data
  simp [String.data_append]

/-- The wrong-project message is non-empty. -/
theorem msg_wrong_ne (ch pr j : String) :
    ("Для канала " ++ ch ++ " указан некорректный проект " ++ pr ++ ". Ожидается: " ++ j :
      String) ≠ "" := by
  apply ne_empty_of_data
  simp [String.data_append]

/-- A channel mapping to a non-empty project set requires the project to
normalize-match one entry. -/
theorem validate_project_required (ch k : String) (ps : List String) (pr : String)
    (hch : ch ≠ "") (hps : ps ≠ []) (hf : findChannelPair (norm ch) = some (k, ps)) :
    validate_shipment_project (projDoc ch (some (.str pr))) = "" ↔
      pr ≠ "" ∧ (ps.map (fun p => norm p)).contains (norm pr) = true := by
  simp only [validate_shipment_project, projDoc_channel ch (some (.str pr)) hch,
    projDoc_project, if_neg hch, hf]
  rw [if_neg hps]
  by_cases hpr : pr = ""
  · rw [if_pos hpr]
    refine iff_of_false (msg_need_ne ch (String.intercalate ", " ps)) ?_
    rintro ⟨hpr', -⟩
    exact hpr' hpr
  · rw [if_neg hpr]
    by_cases hct : ((ps.map (fun p => norm p)).contains (norm pr)) = true
    · rw [if_pos hct]
      exact iff_of_true rfl ⟨hpr, hct⟩
    · rw [if_neg hct]
      refine iff_of_false (msg_wrong_ne ch pr (String.intercalate ", " ps)) ?_
      rintro ⟨-, hc⟩
      exact hct hc

/-- Membership in a three-element character-list list. -/
theorem contains3_iff (x a b c : List Char) :
    ([a, b, c].contains x = true) ↔ (x = a ∨ x = b ∨ x = c) := by
  simp [List.contains, List.elem_cons]

/-- C3.  Channel/project consistency: channel Опт allows exactly the
three wholesale projects; channel Фарма with no project yields the issue
naming аптеки; channel Маркетплейсы never yields an issue; a channel
matching no table entry yields no issue regardless of project; a channel
mapped to the empty set yields no issue; and a channel mapped to a
non-empty set requires the document project to normalize-match one
entry, otherwise an issue naming the expected set is emitted. -/
theorem channel_project_consistency_spec (pr : String) (prv : Option FieldVal) :
    (validate_shipment_project (projDoc "Опт" (some (.str pr))) = "" ↔
      norm pr = norm "Крупный Опт" ∨ norm pr = norm "Средний Опт" ∨
        norm pr = norm "Салоны") ∧
    validate_shipment_project (projDoc "Фарма" none) =
      "Для канала Фарма должен быть указан проект. Ожидается: аптеки" ∧
    hasSubL "аптеки".data (validate_shipment_project (projDoc "Фарма" none)).data = true ∧
    validate_shipment_project (projDoc "Маркетплейсы" prv) = "" ∧
    (∀ ch : String, findChannelPair (norm ch) = none →
      validate_shipment_project (projDoc ch prv) = "") ∧
    (∀ ch k : String, findChannelPair (norm ch) = some (k, []) →
      validate_shipment_project (projDoc ch prv) = "") ∧
    (∀ ch k : String, ∀ ps : List String, ch ≠ "" → ps ≠ [] →
      findChannelPair (norm ch) = some (k, ps) →
      (validate_shipment_project (projDoc ch (some (.str pr))) = "" ↔
        pr ≠ "" ∧ (ps.map (fun p => norm p)).contains (norm pr) = true)) := by
  refine ⟨?_, by decide, by decide, rfl, ?_, ?_, ?_⟩
  · have h := validate_project_required "Опт" "опт" ["крупныйопт", "среднийопт", "салоны"] pr
      (by decide) (by decide) (by decide)
    rw [h]
    have hmap : (["крупныйопт", "среднийопт", "салоны"].map (fun p => norm p)) =
        [norm "Крупный Опт", norm "Средний Опт", norm "Салоны"] := by decide
    rw [hmap, contains3_iff]
    constructor
    · rintro ⟨-, h2⟩
      exact h2
    · intro h2
      refine ⟨?_, h2⟩
      intro hpr
      subst hpr
      rcases h2 with h2 | h2 | h2 <;> exact absurd h2 (by decide)
  · intro ch hf
    by_cases hch : ch = ""
    · subst hch; rfl
    · exact validate_project_no_entry ch prv hch hf
  · intro ch k hf
    by_cases hch : ch = ""
    · subst hch; rfl
    · exact validate_project_empty_set ch k prv hch hf
  · intro ch k ps hch hps hf
    exact validate_project_required ch k ps pr hch hps hf

/-- C3 witness: the theorem instantiated at channel Транзиты with the
project Европа. -/
theorem channel_project_consistency_spec_witness :
    validate_shipment_project (projDoc "Транзиты" (some (.str "Европа"))) = "" := by
  have h := (channel_project_consistency_spec "Европа" none).2.2.2.2.2.2 "Транзиты" "транзиты"
    ["европа", "оаэ", "казахстан", "беларусь", "россия"] (by decide) (by decide) (by decide)
  exact h.mpr ⟨by decide, by decide⟩

/-- A present company-type memo makes `_get_counterparty_type` a pure
read that leaves the document unchanged. -/
theorem get_counterparty_type_memo (f : String → Option String) (doc : Doc)
    (v : Option String) (h : doc.cachedCompanyType = some v) :
    get_counterparty_type f doc = (v, doc) := by
  unfold get_counterparty_type
  rw [h]

/-- A warm owner reference makes `_resolve_owner` leave the cache
unchanged. -/
theorem resolve_owner_warm (f : String → Option EmpData) (cache : OwnerCache)
    (o : Option Ref) (hw : ownerWarm cache o = true) :
    (resolve_owner f cache o).2 = cache := by
  cases o with
  | none => rfl
  | some ow =>
    simp only [ownerWarm, Bool.or_eq_true] at hw
    simp only [resolve_owner]
    by_cases hb : (match ow.name with | none => true | some s => pyBlank s) = true
    · rcases hw with hw | hw
      · have hnb : optNonBlank ow.name = false := by
          rcases hn : ow.name with - | s
          · rfl
          · rw [hn] at hb
            have hb2 : pyBlank s = true := hb
            simp [optNonBlank, hb2]
        rw [hnb] at hw
        exact absurd hw (by decide)
      · rcases hhref : (if optTruthy ow.href then ow.href else none) with - | h
        · rw [if_neg (by simp)]
        · rw [hhref] at hw
          have hw2 : (match List.lookup (if lastSeg h ≠ "" then lastSeg h else h) cache with
              | some c => c != "" | none => false) = true := hw
          rcases hlook : List.lookup (if lastSeg h ≠ "" then lastSeg h else h) cache
            with - | c
          · rw [hlook] at hw2
            exact absurd hw2 (by decide)
          · rw [hlook] at hw2
            have hw3 : (c != "") = true := hw2
            split_ifs with hcond
            · simp only [Option.map_some', Option.getD_some, hlook]
              rw [if_pos (bne_iff_ne.mp hw3)]
            · rfl
    · rw [if_neg (fun hc => hb hc.1)]

/-- Document preservation of `_validate_sales_source` under a present
memo. -/
theorem validate_sales_source_memo (f : String → Option String) (cc : String) (doc : Doc)
    (v : Option String) (h : doc.cachedCompanyType = some v) :
    (validate_sales_source f cc doc).2 = doc := by
  show (get_counterparty_type f doc).2 = doc
  rw [get_counterparty_type_memo f doc v h]

/-- Document preservation of `_validate_shipment_contract` under a
present memo. -/
theorem validate_shipment_contract_memo (f : String → Option String) (doc : Doc)
    (v : Option String) (h : doc.cachedCompanyType = some v) :
    (validate_shipment_contract f doc).2 = doc := by
  show (get_counterparty_type f doc).2 = doc
  rw [get_counterparty_type_memo f doc v h]

/-- Document preservation of `_validate_contract_type_shipment` under a
present memo. -/
theorem validate_contract_type_shipment_memo (f : String → Option String)
    (g : String → Option ContractData) (region : String) (doc : Doc) (v : Option String)
    (h : doc.cachedCompanyType = some v) :
    (validate_contract_type_shipment f g region doc).2 = doc := by
  unfold validate_contract_type_shipment
  split_ifs <;> simp [get_counterparty_type_memo f doc v h]

/-- Document preservation of `_validate_payment_method` under a present
memo. -/
theorem validate_payment_method_memo (f : String → Option String) (region : String)
    (doc : Doc) (v : Option String) (h : doc.cachedCompanyType = some v) :
    (validate_payment_method f region doc).2 = doc := by
  unfold validate_payment_method
  split_ifs <;> simp [get_counterparty_type_memo f doc v h]

/-- With a warm owner cache and a present memo, one evaluation of a
shipment document changes neither the cache nor the document. -/
theorem eval_shipment_doc_state (env : EvalEnv) (cache : OwnerCache) (doc : Doc)
    (v : Option String) (hm : doc.cachedCompanyType = some v)
    (hw : ownerWarm cache doc.owner = true) :
    (eval_shipment_doc env cache doc).2 = (cache, doc) := by
  have h1 := resolve_owner_warm env.fetchEmp cache doc.owner hw
  have hse := validate_sales_source_memo env.fetchAgent env.contact_center doc v hm
  have hce := validate_shipment_contract_memo env.fetchAgent doc v hm
  have hcte := validate_contract_type_shipment_memo env.fetchAgent env.fetchContract
    env.region doc v hm
  have hpme := validate_payment_method_memo env.fetchAgent env.region doc v hm
  simp only [eval_shipment_doc, hse, hce, hcte, hpme, h1]

/-- C9.  Evaluator idempotence: with the owner-name cache warm for the
document's owner reference and the per-document company-type memo
already present, applying the shipments per-document evaluation twice
yields the very same result — in particular an identical issues list —
because the first application already leaves the cache and the document
unchanged. -/
theorem evaluator_idempotent_spec (env : EvalEnv) (cache : OwnerCache) (doc : Doc)
    (v : Option String) (hm : doc.cachedCompanyType = some v)
    (hw : ownerWarm cache doc.owner = true) :
    eval_shipment_doc env (eval_shipment_doc env cache doc).2.1
        (eval_shipment_doc env cache doc).2.2 = eval_shipment_doc env cache doc ∧
    (eval_shipment_doc env (eval_shipment_doc env cache doc).2.1
        (eval_shipment_doc env cache doc).2.2).1.issues =
      (eval_shipment_doc env cache doc).1.issues := by
  have hs := eval_shipment_doc_state env cache doc v hm hw
  have h1 : (eval_shipment_doc env cache doc).2.1 = cache := by rw [hs]
  have h2 : (eval_shipment_doc env cache doc).2.2 = doc := by rw [hs]
  rw [h1, h2]
  exact ⟨rfl, rfl⟩

/-- C9 witness: the theorem instantiated at a warm environment, cache and
document. -/
theorem evaluator_idempotent_spec_witness :
    eval_shipment_doc warmEnv (eval_shipment_doc warmEnv warmCache warmDoc).2.1
        (eval_shipment_doc warmEnv warmCache warmDoc).2.2 =
      eval_shipment_doc warmEnv warmCache warmDoc :=
  (evaluator_idempotent_spec warmEnv warmCache warmDoc (some "legal") rfl (by decide)).1

end Monitoring
